import Mathlib

set_option maxRecDepth 8000
set_option maxHeartbeats 1000000

namespace SmartAssistant

/-! Python-style string primitives used by `ui.py` and `core.py`.

These model the CPython builtins the source relies on (`str.strip`,
`str.lower`, `str.isdigit`, `str.startswith`, `str.split`, `str.replace`),
restricted to ASCII text, which is the alphabet the handler's own literals
and command tokens live in. -/
/-- ASCII whitespace, the characters `str.strip()` removes on ASCII input. -/
def isPyWs (c : Char) : Bool :=
  c = ' ' ∨ c = '\t' ∨ c = '\n' ∨ c = '\r' ∨ c = '\x0b' ∨ c = '\x0c'

/-- Strip leading and trailing elements satisfying `p` (the shape of
`str.strip()` at both the character and the byte level). -/
def stripWith (p : α → Bool) (l : List α) : List α :=
  ((l.dropWhile p).reverse.dropWhile p).reverse

def pyStripList (l : List Char) : List Char := stripWith isPyWs l

/-- `s.strip()` (ASCII whitespace model). -/
def pyStrip (s : String) : String := ⟨pyStripList s.data⟩

/-- `s.lower()` on ASCII letters. -/
def pyLower (s : String) : String := ⟨s.data.map Char.toLower⟩

def isAsciiDigit (c : Char) : Bool := '0' ≤ c ∧ c ≤ '9'

/-- `s.isdigit()` restricted to ASCII digits: nonempty and all digits. -/
def pyIsDigit (s : String) : Bool := s.data ≠ [] ∧ s.data.all isAsciiDigit

/-- `int(s)` on a string of ASCII digits. -/
def strToNat (s : String) : Nat :=
  s.data.foldl (fun acc c => acc * 10 + (c.toNat - 48)) 0

/-- Does the string start with the given character? -/
def pyStartsWithChar (c : Char) (s : String) : Bool :=
  match s.data with
  | [] => false
  | d :: _ => d = c

/-- First whitespace-delimited token (`s.split()[0]` on stripped input). -/
def firstWsToken (s : String) : String := ⟨s.data.takeWhile (fun c => ¬ isPyWs c)⟩

/-- The remainder after the first token and its following whitespace run:
the second component of `s.split(None, 1)` for stripped `s`. -/
def afterFirstWsToken (s : String) : String :=
  ⟨(s.data.dropWhile (fun c => ¬ isPyWs c)).dropWhile isPyWs⟩

/-- `s.split(sep_char, 1)[0]`: everything before the first occurrence of `c`. -/
def beforeFirstChar (c : Char) (s : String) : String :=
  ⟨s.data.takeWhile (fun d => d ≠ c)⟩

/-- `s.replace(old, new)` for single characters. -/
def pyReplaceChar (old new : Char) (s : String) : String :=
  ⟨s.data.map (fun c => if c = old then new else c)⟩

/-- Helper for `pyWsSplit`: accumulates the current token (reversed). -/
def pyWsSplitAux : List Char → List Char → List String
  | [], acc => if acc = [] then [] else [⟨acc.reverse⟩]
  | c :: rest, acc =>
    if isPyWs c then
      (if acc = [] then pyWsSplitAux rest [] else ⟨acc.reverse⟩ :: pyWsSplitAux rest [])
    else pyWsSplitAux rest (c :: acc)

/-- `s.split()`: whitespace-separated tokens, no empties. -/
def pyWsSplit (s : String) : List String := pyWsSplitAux s.data []

/-- Python truthiness of an optional string: `None` and `""` are falsy. -/
def optStrTruthy : Option String → Bool
  | none => false
  | some s => s ≠ ""

/-- `a or b` for optional strings (first truthy value, else `""`):
models `params.get(x) or params.get(y) or ""`. -/
def pyOrStr (a b : Option String) : String :=
  match a with
  | some s => if s ≠ "" then s else (match b with | some t => if t ≠ "" then t else "" | none => "")
  | none => (match b with | some t => if t ≠ "" then t else "" | none => "")

/-! ## Command router (`ui.py`, `route_text`) -/
/-- The routing result of `ui.route_text` / the `route` dict built inside
`core.handle_event`.  Constructors mirror the `kind` tag of the source's
dicts; optional fields mirror the command-specific parsed fields. -/
inductive Route where
  | text (text : String)
  | command (command : String) (args : String)
      (text : Option String) (query : Option String) (taskId : Option String)
  | unknownCommand (command : String) (args : String)
  | error (error : String) (message : String)
  | pickAction (action : String)
  deriving DecidableEq, Repr

/-- `ui.SUPPORTED_COMMANDS`. -/
def SUPPORTED_COMMANDS : List String :=
  ["note", "todo", "today", "done", "search", "inbox", "settings", "start", "help"]

/-- `ui.route_text`: the Telegram-agnostic command router (pure function).

The `isinstance(text, str)` guard is discharged by typing. -/
def routeText (text : String) : Route :=
  let raw := pyStrip text
  if raw = "" then .error "empty_text" "empty message"
  else if ¬ pyStartsWithChar '/' raw then .text raw
  else
    let first := firstWsToken raw
    let cmdToken := ⟨first.data.drop 1⟩
    if cmdToken = "" then .error "missing_command" "missing command"
    else
      let cmdName := pyLower (pyStrip (beforeFirstChar '@' cmdToken))
      let args := pyStrip (afterFirstWsToken raw)
      if cmdName = "start" ∨ cmdName = "help" then .command "help" args none none none
      else if cmdName ∉ SUPPORTED_COMMANDS then .unknownCommand cmdName args
      else if (cmdName = "note" ∨ cmdName = "todo" ∨ cmdName = "search" ∨ cmdName = "done")
              ∧ args = "" then
        .error ("missing_args_" ++ cmdName) ("/" ++ cmdName ++ " requires an argument")
      else if cmdName = "note" ∨ cmdName = "todo" then .command cmdName args (some args) none none
      else if cmdName = "search" then .command cmdName args none (some args) none
      else if cmdName = "done" then .command cmdName args none none (some (firstWsToken args))
      else .command cmdName args none none none

/-! ## Callback codec (`ui.py`, `encode_callback` / `parse_callback`)

Modelled at the byte level: Python's `urllib.parse.quote_plus` UTF-8-encodes
its input and then percent-encodes byte by byte, and every delimiter the
codec uses (`|`, `=`, whitespace, `+`, `%`) is a single ASCII byte, so the
string functions of the source correspond exactly to the same functions on
the UTF-8 byte sequences.  A "string" here is a `List Nat` of byte values. -/
/-- ASCII whitespace bytes (what `str.strip()` removes, byte-level). -/
def isWsByte (b : Nat) : Bool := b = 32 ∨ b = 9 ∨ b = 10 ∨ b = 13 ∨ b = 11 ∨ b = 12

/-- Byte-level `str.strip()`. -/
def bstrip (l : List Nat) : List Nat := stripWith isWsByte l

/-- The bytes `urllib.parse.quote` never escapes (letters, digits, `_.-~`). -/
def isSafeByte (b : Nat) : Bool :=
  (48 ≤ b ∧ b ≤ 57) ∨ (65 ≤ b ∧ b ≤ 90) ∨ (97 ≤ b ∧ b ≤ 122) ∨
    b = 45 ∨ b = 46 ∨ b = 95 ∨ b = 126

/-- Upper-case hex digit for a value `< 16` (as in `quote`'s `%XX`). -/
def hexDigit (n : Nat) : Nat := if n < 10 then 48 + n else 55 + n

/-- Is the byte an ASCII hex digit? -/
def isHexDigitByte (b : Nat) : Bool :=
  (48 ≤ b ∧ b ≤ 57) ∨ (65 ≤ b ∧ b ≤ 70) ∨ (97 ≤ b ∧ b ≤ 102)

/-- Numeric value of an ASCII hex digit. -/
def hexVal (b : Nat) : Nat :=
  if 48 ≤ b ∧ b ≤ 57 then b - 48
  else if 65 ≤ b ∧ b ≤ 70 then b - 55
  else if 97 ≤ b ∧ b ≤ 102 then b - 87
  else 0

/-- `urllib.parse.quote_plus` on one byte: space becomes `+`, safe bytes are
kept, everything else becomes `%XX`. -/
def quotePlusByte (b : Nat) : List Nat :=
  if b = 32 then [43]
  else if isSafeByte b then [b]
  else [37, hexDigit (b / 16), hexDigit (b % 16)]

/-- `urllib.parse.quote_plus` (byte-level). -/
def quotePlus (l : List Nat) : List Nat := l.flatMap quotePlusByte

/-- `urllib.parse.unquote_plus` (byte-level): `+` becomes a space and a `%`
followed by two hex digits becomes that byte; malformed escapes are kept. -/
def unquotePlus : List Nat → List Nat
  | [] => []
  | c :: rest =>
    if c = 43 then 32 :: unquotePlus rest
    else if c = 37 then
      let cont := unquotePlus rest
      match rest with
      | a :: b :: rest2 =>
        if isHexDigitByte a ∧ isHexDigitByte b then (16 * hexVal a + hexVal b) :: unquotePlus rest2
        else 37 :: cont
      | _ => 37 :: cont
    else c :: unquotePlus rest

/-- Split a byte string on every occurrence of `sep` (`str.split(sep)`). -/
def splitOnByteAux (sep : Nat) : List Nat → List Nat → List (List Nat)
  | [], acc => [acc.reverse]
  | c :: rest, acc =>
    if c = sep then acc.reverse :: splitOnByteAux sep rest []
    else splitOnByteAux sep rest (c :: acc)

def splitOnByte (sep : Nat) (l : List Nat) : List (List Nat) := splitOnByteAux sep l []

/-- `sep.join(parts)` (byte-level, single-byte separator). -/
def joinByte (sep : Nat) : List (List Nat) → List Nat
  | [] => []
  | [x] => x
  | x :: xs => x ++ sep :: joinByte sep xs

/-- `s.split(sep, 1)`: the part before the first `sep` and the part after. -/
def splitFirstByte (sep : Nat) (l : List Nat) : List Nat × List Nat :=
  (l.takeWhile (fun b => b ≠ sep), (l.dropWhile (fun b => b ≠ sep)).drop 1)

/-- Ordered-dict assignment `d[k] = v`: update in place or append. -/
def dictSet (l : List (List Nat × List Nat)) (k v : List Nat) : List (List Nat × List Nat) :=
  match l with
  | [] => [(k, v)]
  | (k0, v0) :: rest => if k0 = k then (k0, v) :: rest else (k0, v0) :: dictSet rest k v

/-- One iteration of `encode_callback`'s `for k, v in params.items()` loop:
skip `None` values, validate the stripped key, append `k=quote_plus(v)`. -/
def encodeParamStep (acc : Except String (List (List Nat)))
    (kv : List Nat × Option (List Nat)) : Except String (List (List Nat)) :=
  match acc with
  | .error e => .error e
  | .ok parts =>
    match kv.2 with
    | none => .ok parts
    | some v =>
      if bstrip kv.1 = [] then .error "param keys must be non-empty strings"
      else
        let k := bstrip kv.1
        if 124 ∈ k ∨ 61 ∈ k then .error "param keys must not contain pipe or equals"
        else .ok (parts ++ [k ++ 61 :: quotePlus v])

/-- `ui.encode_callback` (byte-level).  `params` is the insertion-ordered
dict; a `none` value models Python `None` (omitted by the source).
`ValueError` is modelled by `Except.error` carrying the message. -/
def encodeCallback (action : List Nat) (params : List (List Nat × Option (List Nat))) :
    Except String (List Nat) :=
  if bstrip action = [] then .error "action must be a non-empty string"
  else
    let action := bstrip action
    if 124 ∈ action then .error "action must not contain a pipe"
    else if params = [] then .ok action
    else
      match params.foldl encodeParamStep (.ok [action]) with
      | .error e => .error e
      | .ok parts => .ok (joinByte 124 parts)

/-- One iteration of `parse_callback`'s segment loop: skip empty or
`=`-free segments, split on the first `=`, skip empty keys, and assign
into the ordered dict. -/
def parseParamStep (acc : List (List Nat × List Nat)) (seg : List Nat) :
    List (List Nat × List Nat) :=
  let seg := bstrip seg
  if seg = [] ∨ 61 ∉ seg then acc
  else
    let kvp := splitFirstByte 61 seg
    let k := bstrip kvp.1
    if k = [] then acc
    else dictSet acc k (unquotePlus kvp.2)

/-- `ui.parse_callback` (byte-level).  Returns the action and the
insertion-ordered params dict. -/
def parseCallback (data : List Nat) :
    Except String (List Nat × List (List Nat × List Nat)) :=
  if bstrip data = [] then .error "callback data must be a non-empty string"
  else
    let raw := bstrip data
    let chunks := splitOnByte 124 raw
    let action := bstrip (chunks.headD [])
    if action = [] then .error "callback action is missing"
    else .ok (action, (chunks.drop 1).foldl parseParamStep [])

/-! ## Core data model (`core.py`)

`handle_event` consults two external collaborators, the Notion client
(`notion.py`) and the relational layer (`db.py`).  Both are modelled as an
oracle record `Backend` of pure functions, and every collaborator call the
handler makes is additionally logged in an ordered trace (`BCall`), so that
claims about which backend operations run (and how often) are statable. -/
/-- A task dict returned by `notion.list_open_tasks` / `notion.list_inbox_tasks`. -/
structure NTask where
  id : String
  title : Option String
  description : Option String
  due : Option String
  status : Option String
  deriving DecidableEq, Repr

/-- An entry of a rendered task list (the `tasks` payload of `render_cache`
and of `cache_task_list` intents). -/
structure CTask where
  id : String
  title : String
  due : Option String
  status : String
  deriving DecidableEq, Repr

/-- A `render_cache` value: `{list_kind, tasks, text}`. -/
structure CacheEntry where
  listKind : String
  tasks : List CTask
  text : String
  deriving DecidableEq, Repr

/-- A `state.pending[chat_id]` entry.  `sourceMessageId = none` models a
value `int()` cannot convert. -/
structure Pending where
  mode : String
  sourceMessageId : Option Int
  taskId : Option String
  itemNumber : Option Nat
  deriving DecidableEq, Repr

/-- `core.Note` (in-memory fallback; `labels` is never touched by the handler). -/
structure MemNote where
  id : String
  text : String
  createdAt : String
  deriving DecidableEq, Repr

/-- `core.Task` (in-memory fallback). -/
structure MemTask where
  id : String
  text : String
  createdAt : String
  done : Bool
  deriving DecidableEq, Repr

/-- A row of `db.list_open_tasks`. -/
structure DbTask where
  id : String
  text : String
  deriving DecidableEq, Repr

/-- A row of `db.search_notes_tasks`. -/
structure SearchHit where
  kind : String
  id : String
  text : String
  done : Bool
  deriving DecidableEq, Repr

/-- An inline-keyboard button. -/
structure Button where
  text : String
  url : Option String
  callbackData : Option String
  deriving DecidableEq, Repr

/-- A `reply_markup` value: the `inline_keyboard` rows. -/
abbrev Markup := List (List Button)

/-- The `update_task` payload of an `edit` intent. -/
structure UpdateTask where
  id : String
  title : String
  deriving DecidableEq, Repr

/-- An outbound intent of `handle_event`.  Optional fields are the dict keys
the source adds only when non-`None`. -/
inductive Intent where
  | reply (chatId : Int) (text : String)
      (replyMarkup : Option Markup) (disableWebPagePreview : Option Bool)
  | edit (chatId : Int) (messageId : Int)
      (removeTaskId : Option String) (updateTask : Option UpdateTask)
  | cacheTaskList (chatId : Int) (listKind : String) (tasks : List CTask) (text : String)
  deriving DecidableEq, Repr

/-- One collaborator call made by the handler (the trace alphabet). -/
inductive BCall where
  | dbInitDb
  | dbGetSetting (key : String)
  | dbSetSetting (key value : String)
  | dbCreateNote (chatId : Int) (text : String)
  | dbCreateTask (chatId : Int) (text : String)
  | dbListOpenTasks (chatId : Int) (limit : Nat)
  | dbMarkTaskDone (chatId : Int) (taskId : String)
  | dbSearchNotesTasks (chatId : Int) (query : String) (limit : Nat)
  | dbSaveMessageMap (chatId : Int) (messageId : Int) (notionPageId : String)
  | notionCreateNote (dbId title text : String)
  | notionCreateTask (dbId title : String)
  | notionListOpenTasks (dbId : String) (limit : Nat)
  | notionListInboxTasks (dbId : String) (limit : Nat)
  | notionMarkTaskDone (pageId : String)
  | notionUpdateTaskTitle (pageId title : String)
  deriving DecidableEq, Repr

/-- The external collaborators (`notion.py` client and `db.py` layer) as an
oracle of pure functions.  `notionCreateNote dbId title text` and
`notionCreateTask dbId title` return the created page id; the remaining
keyword arguments the source passes are constants and do not vary.
`notionPageUrl` is `notion.page_url`, a pure URL formatter. -/
structure Backend where
  dbGetSetting : String → Option String
  dbCreateNote : Int → String → String
  dbCreateTask : Int → String → String
  dbListOpenTasks : Int → Nat → List DbTask
  dbMarkTaskDone : Int → String → Bool
  dbSearchNotesTasks : Int → String → Nat → List SearchHit
  notionCreateNote : String → String → String → String
  notionCreateTask : String → String → String
  notionListOpenTasks : String → Nat → List NTask
  notionListInboxTasks : String → Nat → List NTask
  notionMarkTaskDone : String → Bool
  notionUpdateTaskTitle : String → String → Bool
  notionPageUrl : String → String

/-- The environment variables the handler reads (`os.getenv(..., "")`). -/
structure Env where
  databaseUrl : String
  notionToken : String
  notionNotesDbId : String
  notionTasksDbId : String

/-- `core.AppState`.  The per-chat dicts are modelled as total functions
(`setdefault(chat, [])` makes a missing list and the empty list
indistinguishable); `pending` keeps the present/absent distinction the
state machine depends on. -/
structure AppState where
  notes : Int → List MemNote
  tasks : Int → List MemTask
  seq : Nat
  renderCache : Int → Int → Option CacheEntry
  pending : Int → Option Pending

/-- A parsed callback payload (`event["callback"]`): either an error marker
from `normalize_update` or the `parse_callback` result. -/
structure CallbackData where
  kind : Option String
  message : Option String
  action : Option String
  params : String → Option String

/-- A normalized inbound event (`normalize_update`'s output shape).
`chatId = none` models a missing or non-integer chat id. -/
structure Event where
  type : String
  chatId : Option Int
  userId : Option Int
  messageId : Option Int
  text : Option String
  route : Option Route
  callback : Option CallbackData

/-- The result of one `handle_event` call: the state after the call, the
intent list, the collaborator-call trace, and whether an uncaught Python
exception escaped (`crashed`). -/
structure HResult where
  state : AppState
  intents : List Intent
  calls : List BCall
  crashed : Bool

/-! ## Handler helpers (`core.py`) -/
/-- `"\n".join(lines)` (and other single-separator joins). -/
def joinSepStr (sep : String) : List String → String
  | [] => ""
  | [x] => x
  | x :: xs => x ++ sep ++ joinSepStr sep xs

/-- A bare `reply(...)` intent (no extra keyword arguments). -/
def mkReply (chatId : Int) (msg : String) : Intent := .reply chatId msg none none

/-- `DATABASE_URL` presence switch: `bool(os.getenv("DATABASE_URL", "").strip())`. -/
def dbEnabled (env : Env) : Bool := pyStrip env.databaseUrl ≠ ""

/-- The Notion-id resolution block shared by `handle_event` and
`build_daily_brief_text`: strip the env values and, when the relational
layer is configured and an id is missing, best-effort load it from the
Postgres settings table.  Returns the resolved ids and the db calls made. -/
def resolveNotionIds (env : Env) (b : Backend) : String × String × List BCall :=
  let notes := pyStrip env.notionNotesDbId
  let tasks := pyStrip env.notionTasksDbId
  if dbEnabled env ∧ (notes = "" ∨ tasks = "") then
    let nr := if notes = "" then
        (pyStrip ((b.dbGetSetting "notion_notes_db_id").getD ""),
         [BCall.dbGetSetting "notion_notes_db_id"])
      else (notes, [])
    let tr := if tasks = "" then
        (pyStrip ((b.dbGetSetting "notion_tasks_db_id").getD ""),
         [BCall.dbGetSetting "notion_tasks_db_id"])
      else (tasks, [])
    (nr.1, tr.1, BCall.dbInitDb :: (nr.2 ++ tr.2))
  else (notes, tasks, [])

/-- `bool(notion_token and notes_db_id and tasks_db_id)` after resolution. -/
def notionEnabled (env : Env) (b : Backend) : Bool :=
  pyStrip env.notionToken ≠ "" ∧ (resolveNotionIds env b).1 ≠ "" ∧ (resolveNotionIds env b).2.1 ≠ ""

/-- `_make_title`: first line of the stripped text, truncated to 80 chars. -/
def makeTitle (s : String) : String :=
  let s := pyStrip s
  if s = "" then "Untitled"
  else
    let first := pyStrip ⟨s.data.takeWhile (fun c => c ≠ '\n' ∧ c ≠ '\r')⟩
    if first.length ≤ 80 then first else ⟨first.data.take 77⟩ ++ "..."

/-- `_open_in_notion_markup`. -/
def openInNotionMarkup (url : String) : Markup := [[⟨"Open in Notion", some url, none⟩]]

/-- `_two_button_task_list_markup`. -/
def twoButtonTaskListMarkup : Markup :=
  [[⟨"Done", none, some "pick_done"⟩, ⟨"Edit", none, some "pick_edit"⟩]]

/-- `_save_message_map`: best-effort Telegram-message → Notion-page
traceability.  Against `db.save_message_map`'s actual
`(chat_id, message_id, notion_page_id)` signature the first three call
shapes the source tries raise `TypeError` and the fourth succeeds, so the
recorded call is `save_message_map(chat_id, message_id, page_id)`; all
exceptions are swallowed, nothing else is observable. -/
def saveMessageMapCalls (dbOn : Bool) (mid : Option Int) (chatId : Int) (pageId : String) :
    List BCall :=
  if ¬ dbOn then []
  else match mid with
    | none => []
    | some m => [.dbInitDb, .dbSaveMessageMap chatId m pageId]

/-- In-memory `for t in tasks: if t.id == task_id: t.done = True; break`. -/
def markFirstDone (taskId : String) : List MemTask → List MemTask
  | [] => []
  | t :: rest =>
    if t.id = taskId then { t with done := true } :: rest else t :: markFirstDone taskId rest

/-- In-memory `for t in tasks: if t.id == task_id: t.text = new_title; break`. -/
def setFirstText (taskId newText : String) : List MemTask → List MemTask
  | [] => []
  | t :: rest =>
    if t.id = taskId then { t with text := newText } :: rest else t :: setFirstText taskId newText rest

def popPending (st : AppState) (chat : Int) : AppState :=
  { st with pending := fun c => if c = chat then none else st.pending c }

def setPending (st : AppState) (chat : Int) (p : Pending) : AppState :=
  { st with pending := fun c => if c = chat then some p else st.pending c }

def setMemTasks (st : AppState) (chat : Int) (ts : List MemTask) : AppState :=
  { st with tasks := fun c => if c = chat then ts else st.tasks c }

def appendMemNote (st : AppState) (chat : Int) (n : MemNote) : AppState :=
  { st with notes := fun c => if c = chat then st.notes c ++ [n] else st.notes c }

def appendMemTask (st : AppState) (chat : Int) (t : MemTask) : AppState :=
  { st with tasks := fun c => if c = chat then st.tasks c ++ [t] else st.tasks c }

/-- The search-result snippet: strip, flatten newlines, truncate past 80 chars. -/
def snippet80 (s : String) : String :=
  let sn := pyReplaceChar '\n' ' ' (pyStrip s)
  if sn.length > 80 then ⟨sn.data.take 77⟩ ++ "..." else sn

/-- `l[-n:]`. -/
def lastN (n : Nat) (l : List α) : List α := l.drop (l.length - n)

/-- `enumerate(xs, start=i)` rendered through a line formatter. -/
def enumLines (f : Nat → α → String) (i : Nat) : List α → List String
  | [] => []
  | x :: xs => f i x :: enumLines f (i + 1) xs

/-- The per-call handler context, fixed after the mode switches resolve. -/
structure HCtx where
  env : Env
  b : Backend
  nowIso : String
  ev : Event
  chatId : Int
  et : String
  msgText : String
  notionOn : Bool
  dbOn : Bool
  notesDbId : String
  tasksDbId : String

/-! ## Pending-pick interception (`core.py` lines 403-530) -/
/-- `_get_cached_tasks`: resolve the cached task list at
`(chat_id, int(source_message_id))`; `none` when the id cannot convert or
no cache entry exists. -/
def getCachedTasks (st : AppState) (chatId : Int) (sourceMid : Option Int) :
    Option (List CTask) :=
  match sourceMid with
  | none => none
  | some m =>
    match st.renderCache chatId m with
    | none => none
    | some cache => some cache.tasks

/-- The tail of a successful `done_pick`: clear `pending`, then edit the
original list message (or apologize when the source id is unusable). -/
def finishDonePick (chatId : Int) (sourceMid : Option Int) (taskId : String)
    (st : AppState) (calls : List BCall) : HResult :=
  let st2 := popPending st chatId
  match sourceMid with
  | none => ⟨st2, [mkReply chatId "Done. (Could not update the list message.)"], calls, false⟩
  | some m => ⟨st2, [.edit chatId m (some taskId) none], calls, false⟩

/-- `item_number` interpolated into an f-string (`None` prints as "None"). -/
def showOptNat : Option Nat → String
  | none => "None"
  | some n => toString n

/-- The multi-step Done/Edit interception for a plain-text message while a
`pending` entry exists.  `p` is the entry read before the
command-while-pending reset; `st` is the (possibly already reset) state.
`none` means the mode matched nothing and control falls through to normal
routing. -/
def interceptPending (c : HCtx) (p : Pending) (st : AppState) : Option HResult :=
  let mode := pyStrip p.mode
  let sourceMid := p.sourceMessageId
  let raw := pyStrip c.msgText
  if mode = "done_pick" ∨ mode = "edit_pick" then
    if ¬ pyIsDigit raw then
      some ⟨st, [mkReply c.chatId "Reply with the item number (e.g. 2)."], [], false⟩
    else
      let idx := strToNat raw
      match getCachedTasks st c.chatId sourceMid with
      | none =>
        some ⟨popPending st c.chatId,
              [mkReply c.chatId "Task list expired. Run /today or /inbox again."], [], false⟩
      | some tasks =>
        if tasks = [] then
          some ⟨popPending st c.chatId,
                [mkReply c.chatId "Task list expired. Run /today or /inbox again."], [], false⟩
        else if idx < 1 ∨ idx > tasks.length then
          some ⟨st,
                [mkReply c.chatId ("Invalid number. Choose 1 to " ++ toString tasks.length ++ ".")],
                [], false⟩
        else
          let task := tasks.getD (idx - 1) ⟨"", "", none, ""⟩
          let taskId := pyStrip task.id
          if taskId = "" then
            some ⟨popPending st c.chatId,
                  [mkReply c.chatId "That item is missing an id. Run /today again."], [], false⟩
          else if mode = "done_pick" then
            if c.notionOn then
              if ¬ c.b.notionMarkTaskDone taskId then
                some ⟨popPending st c.chatId,
                      [mkReply c.chatId "Could not mark done (Notion). Try /today again."],
                      [.notionMarkTaskDone taskId], false⟩
              else some (finishDonePick c.chatId sourceMid taskId st [.notionMarkTaskDone taskId])
            else if c.dbOn then
              if ¬ c.b.dbMarkTaskDone c.chatId taskId then
                some ⟨popPending st c.chatId,
                      [mkReply c.chatId "Could not mark done. Try /today again."],
                      [.dbInitDb, .dbMarkTaskDone c.chatId taskId], false⟩
              else some (finishDonePick c.chatId sourceMid taskId st
                          [.dbInitDb, .dbMarkTaskDone c.chatId taskId])
            else
              some (finishDonePick c.chatId sourceMid taskId
                      (setMemTasks st c.chatId (markFirstDone taskId (st.tasks c.chatId))) [])
          else
            some ⟨setPending st c.chatId ⟨"edit_new_text", sourceMid, some taskId, some idx⟩,
                  [mkReply c.chatId ("Send the new text for item " ++ toString idx ++ ".")],
                  [], false⟩
  else if mode = "edit_new_text" then
    let taskId := pyStrip (p.taskId.getD "")
    let itemNo := p.itemNumber
    let newTitle := raw
    if newTitle = "" then
      some ⟨st, [mkReply c.chatId "New text cannot be empty. Send the updated task text."], [], false⟩
    else
      let upd :=
        if c.notionOn then (st, [BCall.notionUpdateTaskTitle taskId newTitle])
        else if c.dbOn then (st, [BCall.dbInitDb])
        else (setMemTasks st c.chatId (setFirstText taskId newTitle (st.tasks c.chatId)), [])
      let st2 := popPending upd.1 c.chatId
      match sourceMid with
      | none =>
        some ⟨st2,
              [mkReply c.chatId
                ("Updated item " ++ showOptNat itemNo ++ ". (Could not update the list message.)")],
              upd.2, false⟩
      | some m => some ⟨st2, [.edit c.chatId m none (some ⟨taskId, newTitle⟩)], upd.2, false⟩
  else none

/-! ## Command dispatch (`core.py` lines 532-944) -/
/-- Does the first list occur at the start of the second? -/
def startsSeg : List Char → List Char → Bool
  | [], _ => true
  | _ :: _, [] => false
  | a :: as, b :: bs => a = b ∧ startsSeg as bs

/-- Python's substring test `needle in haystack`. -/
def containsSeg (needle : List Char) : List Char → Bool
  | [] => needle = []
  | c :: rest => startsSeg needle (c :: rest) ∨ containsSeg needle rest

/-- The `/today` Notion list renderer: numbered `"{i}. {title}{due_txt}"`
lines plus the cached snapshot entries. -/
def todayLines (i : Nat) : List NTask → List String × List CTask
  | [] => ([], [])
  | t :: rest =>
    let title := pyStrip (t.title.getD "")
    let status := match t.status with
      | some s => if s ≠ "" then s else "todo"
      | none => "todo"
    let dueTxt := match t.due with
      | some d => if d ≠ "" then " (due " ++ d ++ ")" else ""
      | none => ""
    let r := todayLines (i + 1) rest
    ((toString i ++ ". " ++ title ++ dueTxt) :: r.1, (⟨t.id, title, t.due, status⟩ : CTask) :: r.2)

/-- The `/inbox` Notion list renderer: `"{i}. [{status}] {title}{due_txt}"`. -/
def inboxLines (i : Nat) : List NTask → List String × List CTask
  | [] => ([], [])
  | t :: rest =>
    let title := pyStrip (t.title.getD "")
    let status := match t.status with
      | some s => if s ≠ "" then s else "todo"
      | none => "todo"
    let dueTxt := match t.due with
      | some d => if d ≠ "" then " (due " ++ d ++ ")" else ""
      | none => ""
    let r := inboxLines (i + 1) rest
    ((toString i ++ ". [" ++ status ++ "] " ++ title ++ dueTxt) :: r.1,
     (⟨t.id, title, t.due, status⟩ : CTask) :: r.2)

/-- One search-result line of the relational-search rendering. -/
def dbSearchLine (h : SearchHit) : String :=
  if h.kind = "task" then
    "- " ++ (if h.done then "✅" else "☐") ++ " " ++ h.id ++ ": " ++ h.text
  else "- 📝 " ++ h.id ++ ": " ++ snippet80 h.text

/-- The note-creation tail shared by `/note` and plain-text capture. -/
def createNoteResult (c : HCtx) (st : AppState) (noteText : String) : HResult :=
  if c.notionOn then
    let pageId := c.b.notionCreateNote c.notesDbId (makeTitle noteText) noteText
    ⟨st,
     [.reply c.chatId ("Saved note (Notion): " ++ pageId)
        (some (openInNotionMarkup (c.b.notionPageUrl pageId))) (some true)],
     BCall.notionCreateNote c.notesDbId (makeTitle noteText) noteText ::
       saveMessageMapCalls c.dbOn c.ev.messageId c.chatId pageId,
     false⟩
  else if c.dbOn then
    let nid := c.b.dbCreateNote c.chatId noteText
    ⟨st, [mkReply c.chatId ("Saved note: " ++ nid)],
     [.dbInitDb, .dbCreateNote c.chatId noteText], false⟩
  else
    let nid := "note_" ++ toString (st.seq + 1)
    ⟨appendMemNote { st with seq := st.seq + 1 } c.chatId ⟨nid, noteText, c.nowIso⟩,
     [mkReply c.chatId ("Saved note: " ++ nid)], [], false⟩

/-- The `settings` allowed-keys reply fragment (`', '.join(sorted(allowed))`). -/
def settingsAllowedKeys : String := "ai_enabled, daily_brief_time, privacy_mode, timezone"

/-- `cmd == "settings"`.  In relational mode the non-`set` path calls
`db.get_setting(key, default)` with two arguments against a one-parameter
signature, so it raises `TypeError` (modelled by `crashed`). -/
def settingsCommand (c : HCtx) (st : AppState) : HResult :=
  let raw := pyStrip (c.ev.text.getD "")
  let parts := pyWsSplit raw
  let initCalls : List BCall := if c.dbOn then [.dbInitDb] else []
  if parts.length ≥ 4 ∧ parts.getD 1 "" = "set" then
    let key := pyStrip (parts.getD 2 "")
    let value := pyStrip (joinSepStr " " (parts.drop 3))
    if ¬ (key = "timezone" ∨ key = "daily_brief_time" ∨ key = "privacy_mode" ∨ key = "ai_enabled")
    then ⟨st, [mkReply c.chatId ("Invalid key. Allowed: " ++ settingsAllowedKeys)], initCalls, false⟩
    else if key = "daily_brief_time" ∧ ¬ (value.length = 5 ∧ value.data.getD 2 ' ' = ':') then
      ⟨st, [mkReply c.chatId "daily_brief_time must be HH:MM (e.g., 07:30)"], initCalls, false⟩
    else
      let norm :=
        if key = "ai_enabled" then
          let v2 := pyLower value
          if v2 = "1" ∨ v2 = "true" ∨ v2 = "yes" ∨ v2 = "on" then some "true"
          else if v2 = "0" ∨ v2 = "false" ∨ v2 = "no" ∨ v2 = "off" then some "false"
          else none
        else some value
      match norm with
      | none => ⟨st, [mkReply c.chatId "ai_enabled must be true/false"], initCalls, false⟩
      | some value =>
        ⟨st, [mkReply c.chatId ("Updated " ++ key ++ " = " ++ value)],
         initCalls ++ (if c.dbOn then [.dbSetSetting key value] else []), false⟩
  else
    if c.dbOn then ⟨st, [], initCalls, true⟩
    else
      ⟨st,
       [mkReply c.chatId
         ("Settings:\n- timezone: Asia/Singapore\n- daily_brief_time: 07:30\n- privacy_mode: A\n- ai_enabled: true\n\nUpdate with:\n/settings set <key> <value>\nKeys: timezone, daily_brief_time, privacy_mode, ai_enabled")],
       initCalls, false⟩

/-- The `pick_action` / `command` / plain-text / `unknown_command` / `error`
routing of `handle_event` after the pending interception. -/
def dispatchRoute (c : HCtx) (route : Route) (st : AppState) : HResult :=
  match route with
  | .pickAction action =>
    match c.ev.messageId with
    | none => ⟨st, [mkReply c.chatId "I can’t find the task list message. Run /today again."], [], false⟩
    | some mid =>
      if action = "pick_done" then
        let n := match st.renderCache c.chatId mid with
          | some cache => cache.tasks.length
          | none => 0
        ⟨setPending st c.chatId ⟨"done_pick", some mid, none, none⟩,
         [mkReply c.chatId ("Which item number to mark Done? (1 to " ++ toString n ++ ")")],
         [], false⟩
      else if action = "pick_edit" then
        let n := match st.renderCache c.chatId mid with
          | some cache => cache.tasks.length
          | none => 0
        ⟨setPending st c.chatId ⟨"edit_pick", some mid, none, none⟩,
         [mkReply c.chatId ("Which item number to Edit? (1 to " ++ toString n ++ ")")],
         [], false⟩
      else ⟨st, [mkReply c.chatId "Unknown action."], [], false⟩
  | .command cmd _args rtext rquery rtaskId =>
    if cmd = "note" then
      let noteText := pyStrip (rtext.getD "")
      if noteText = "" then ⟨st, [mkReply c.chatId "Missing text. Usage: /note <text>"], [], false⟩
      else createNoteResult c st noteText
    else if cmd = "todo" then
      let taskText := pyStrip (rtext.getD "")
      if taskText = "" then ⟨st, [mkReply c.chatId "Missing text. Usage: /todo <text>"], [], false⟩
      else if c.notionOn then
        let pageId := c.b.notionCreateTask c.tasksDbId taskText
        ⟨st,
         [.reply c.chatId ("Added task (Notion): " ++ pageId)
            (some (openInNotionMarkup (c.b.notionPageUrl pageId))) (some true)],
         BCall.notionCreateTask c.tasksDbId taskText ::
           saveMessageMapCalls c.dbOn c.ev.messageId c.chatId pageId,
         false⟩
      else if c.dbOn then
        let tid := c.b.dbCreateTask c.chatId taskText
        ⟨st, [mkReply c.chatId ("Added task: " ++ tid)],
         [.dbInitDb, .dbCreateTask c.chatId taskText], false⟩
      else
        let tid := "task_" ++ toString (st.seq + 1)
        ⟨appendMemTask { st with seq := st.seq + 1 } c.chatId ⟨tid, taskText, c.nowIso, false⟩,
         [mkReply c.chatId ("Added task: " ++ tid)], [], false⟩
    else if cmd = "today" then
      if c.notionOn then
        let tasks := c.b.notionListOpenTasks c.tasksDbId 5
        let calls := [BCall.notionListOpenTasks c.tasksDbId 5]
        if tasks = [] then ⟨st, [mkReply c.chatId "No open tasks. Go touch grass 🌱"], calls, false⟩
        else
          let r := todayLines 1 tasks
          let textOut := "Open tasks: " ++ toString tasks.length ++ "\n" ++ joinSepStr "\n" r.1
          ⟨st,
           [.reply c.chatId textOut (some twoButtonTaskListMarkup) (some true),
            .cacheTaskList c.chatId "today" r.2 textOut],
           calls, false⟩
      else if c.dbOn then
        let openTasks := c.b.dbListOpenTasks c.chatId 5
        let calls : List BCall := [.dbInitDb, .dbListOpenTasks c.chatId 5]
        if openTasks = [] then ⟨st, [mkReply c.chatId "No open tasks. Go touch grass 🌱"], calls, false⟩
        else
          let preview := joinSepStr "\n" (openTasks.map (fun t => "- " ++ t.id ++ ": " ++ t.text))
          ⟨st, [mkReply c.chatId ("Open tasks: " ++ toString openTasks.length ++ "\n" ++ preview)],
           calls, false⟩
      else
        let openTasks := (st.tasks c.chatId).filter (fun t => ¬ t.done)
        if openTasks = [] then ⟨st, [mkReply c.chatId "No open tasks. Go touch grass 🌱"], [], false⟩
        else
          let preview := joinSepStr "\n" ((lastN 5 openTasks).map (fun t => "- " ++ t.id ++ ": " ++ t.text))
          ⟨st, [mkReply c.chatId ("Open tasks: " ++ toString openTasks.length ++ "\n" ++ preview)],
           [], false⟩
    else if cmd = "inbox" then
      if c.notionOn then
        let tasks := c.b.notionListInboxTasks c.tasksDbId 20
        let calls := [BCall.notionListInboxTasks c.tasksDbId 20]
        if tasks = [] then
          ⟨st, [mkReply c.chatId "Inbox is empty. Suspiciously productive. 😎"], calls, false⟩
        else
          let r := inboxLines 1 tasks
          let textOut := "Inbox (open tasks):\n" ++ joinSepStr "\n" r.1
          ⟨st,
           [.reply c.chatId textOut (some twoButtonTaskListMarkup) (some true),
            .cacheTaskList c.chatId "inbox" r.2 textOut],
           calls, false⟩
      else if c.dbOn then
        let openTasks := c.b.dbListOpenTasks c.chatId 20
        let calls : List BCall := [.dbInitDb, .dbListOpenTasks c.chatId 20]
        if openTasks = [] then
          ⟨st, [mkReply c.chatId "Inbox is empty. Suspiciously productive. 😎"], calls, false⟩
        else
          let preview := joinSepStr "\n" (openTasks.map (fun t => "- " ++ t.id ++ ": " ++ t.text))
          ⟨st, [mkReply c.chatId ("Inbox (open tasks):\n" ++ preview)], calls, false⟩
      else
        let openTasks := (st.tasks c.chatId).filter (fun t => ¬ t.done)
        if openTasks = [] then
          ⟨st, [mkReply c.chatId "Inbox is empty. Suspiciously productive. 😎"], [], false⟩
        else
          let preview := joinSepStr "\n" ((lastN 20 openTasks).map (fun t => "- " ++ t.id ++ ": " ++ t.text))
          ⟨st, [mkReply c.chatId ("Inbox (open tasks):\n" ++ preview)], [], false⟩
    else if cmd = "done" then
      let taskId := pyStrip (rtaskId.getD "")
      if taskId = "" then ⟨st, [mkReply c.chatId "Missing task id. Usage: /done <task_id>"], [], false⟩
      else if c.notionOn then
        let calls := [BCall.notionMarkTaskDone taskId]
        if ¬ c.b.notionMarkTaskDone taskId then
          ⟨st, [mkReply c.chatId ("Task not found (Notion): " ++ taskId)], calls, false⟩
        else match c.ev.messageId with
          | some mid =>
            if c.et = "callback" then ⟨st, [.edit c.chatId mid (some taskId) none], calls, false⟩
            else ⟨st, [mkReply c.chatId ("Marked done (Notion): " ++ taskId)], calls, false⟩
          | none => ⟨st, [mkReply c.chatId ("Marked done (Notion): " ++ taskId)], calls, false⟩
      else if c.dbOn then
        let calls : List BCall := [.dbInitDb, .dbMarkTaskDone c.chatId taskId]
        if ¬ c.b.dbMarkTaskDone c.chatId taskId then
          ⟨st, [mkReply c.chatId ("Task not found (or already done): " ++ taskId)], calls, false⟩
        else match c.ev.messageId with
          | some mid =>
            if c.et = "callback" then ⟨st, [.edit c.chatId mid (some taskId) none], calls, false⟩
            else ⟨st, [mkReply c.chatId ("Marked done: " ++ taskId)], calls, false⟩
          | none => ⟨st, [mkReply c.chatId ("Marked done: " ++ taskId)], calls, false⟩
      else
        match (st.tasks c.chatId).find? (fun t => t.id = taskId) with
        | none => ⟨st, [mkReply c.chatId ("Task not found: " ++ taskId)], [], false⟩
        | some t =>
          if t.done then ⟨st, [mkReply c.chatId (taskId ++ " is already done.")], [], false⟩
          else
            let st1 := setMemTasks st c.chatId (markFirstDone taskId (st.tasks c.chatId))
            match c.ev.messageId with
            | some mid =>
              if c.et = "callback" then ⟨st1, [.edit c.chatId mid (some taskId) none], [], false⟩
              else ⟨st1, [mkReply c.chatId ("Marked done: " ++ taskId)], [], false⟩
            | none => ⟨st1, [mkReply c.chatId ("Marked done: " ++ taskId)], [], false⟩
    else if cmd = "search" then
      let q := pyStrip (rquery.getD "")
      if q = "" then ⟨st, [mkReply c.chatId "Missing query. Usage: /search <query>"], [], false⟩
      else if c.dbOn then
        let hits := c.b.dbSearchNotesTasks c.chatId q 10
        let calls : List BCall := [.dbInitDb, .dbSearchNotesTasks c.chatId q 10]
        if hits = [] then
          ⟨st, [mkReply c.chatId ("No results for: \"" ++ q ++ "\"")], calls, false⟩
        else
          let lines := ("Results for: \"" ++ q ++ "\"") :: (hits.take 10).map dbSearchLine
          ⟨st, [mkReply c.chatId (joinSepStr "\n" lines)], calls, false⟩
      else
        let ql := pyLower q
        let taskHits := ((st.tasks c.chatId).filter
            (fun t => containsSeg ql.data (pyLower t.text).data)).map
          (fun t => (if t.done then "✅" else "☐") ++ " " ++ t.id ++ ": " ++ t.text)
        let noteHits := ((st.notes c.chatId).filter
            (fun n => containsSeg ql.data (pyLower n.text).data)).map
          (fun n => "📝 " ++ n.id ++ ": " ++ snippet80 n.text)
        if taskHits = [] ∧ noteHits = [] then
          ⟨st, [mkReply c.chatId ("No results for: \"" ++ q ++ "\"")], [], false⟩
        else
          let lines := [("Results for: \"" ++ q ++ "\"")] ++
            (if taskHits ≠ [] then "Tasks:" :: (taskHits.take 5).map (fun x => "- " ++ x) else []) ++
            (if noteHits ≠ [] then "Notes:" :: (noteHits.take 5).map (fun x => "- " ++ x) else [])
          ⟨st, [mkReply c.chatId (joinSepStr "\n" lines)], [], false⟩
    else if cmd = "settings" then settingsCommand c st
    else if cmd = "help" then
      ⟨st,
       [mkReply c.chatId
         "Commands:\n/note <text>\n/todo <text>\n/inbox\n/today\n/done <task_id>\n/settings\n/search <query>"],
       [], false⟩
    else ⟨st, [mkReply c.chatId ("Command not implemented yet: /" ++ cmd)], [], false⟩
  | .text rtext =>
    if c.et = "message" then
      let noteText := pyStrip rtext
      if noteText = "" then ⟨st, [mkReply c.chatId "Empty message"], [], false⟩
      else createNoteResult c st noteText
    else ⟨st, [], [], false⟩
  | .unknownCommand cmd _args =>
    ⟨st, [mkReply c.chatId ("Unknown command: /" ++ cmd ++ " (try /help)")], [], false⟩
  | .error _err message => ⟨st, [mkReply c.chatId message], [], false⟩

/-! ## `core.handle_event` -/
/-- Does a route dict have `kind == "text"`? -/
def routeIsText : Route → Bool
  | .text _ => true
  | _ => false

/-- Prepend the Notion-id resolution calls to a branch result. -/
def withResCalls (resCalls : List BCall) (r : HResult) : HResult :=
  ⟨r.state, r.intents, resCalls ++ r.calls, r.crashed⟩

/-- `core.handle_event`: one normalized event against the conversation
state.  `nowIso` stands for `_now_iso()` (the wall clock is external). -/
def handleEvent (env : Env) (b : Backend) (nowIso : String) (ev : Event) (st0 : AppState) :
    HResult :=
  if ev.type ≠ "message" ∧ ev.type ≠ "callback" then ⟨st0, [], [], false⟩
  else
    match ev.chatId with
    | none => ⟨st0, [], [], false⟩
    | some chatId =>
      if ev.type = "message" then
        let text := pyStrip (ev.text.getD "")
        let route := ev.route.getD (.text text)
        let ids := resolveNotionIds env b
        let nOn := pyStrip env.notionToken ≠ "" ∧ ids.1 ≠ "" ∧ ids.2.1 ≠ ""
        let c : HCtx :=
          ⟨env, b, nowIso, ev, chatId, "message", text, nOn, dbEnabled env, ids.1, ids.2.1⟩
        let pending0 := st0.pending chatId
        let st1 :=
          if pending0.isSome ∧ pyStartsWithChar '/' (pyStrip text) then popPending st0 chatId
          else st0
        match pending0 with
        | some p =>
          if routeIsText route then
            match interceptPending c p st1 with
            | some r => withResCalls ids.2.2 r
            | none => withResCalls ids.2.2 (dispatchRoute c route st1)
          else withResCalls ids.2.2 (dispatchRoute c route st1)
        | none => withResCalls ids.2.2 (dispatchRoute c route st1)
      else
        let cb := ev.callback.getD ⟨none, none, none, fun _ => none⟩
        if cb.kind = some "error" then
          ⟨st0, [mkReply chatId (pyOrStr cb.message (some "Invalid action"))], [], false⟩
        else
          let action := pyStrip (cb.action.getD "")
          let route? : Option Route :=
            if action = "today" ∨ action = "inbox" ∨ action = "help" ∨ action = "settings" then
              some (.command action "" none none none)
            else if action = "done" then
              some (.command "done" "" none none
                (some (pyStrip (pyOrStr (cb.params "task_id") (cb.params "id")))))
            else if action = "pick_done" ∨ action = "pick_edit" then some (.pickAction action)
            else none
          match route? with
          | none => ⟨st0, [mkReply chatId ("Unknown action: " ++ action)], [], false⟩
          | some route =>
            let ids := resolveNotionIds env b
            let nOn := pyStrip env.notionToken ≠ "" ∧ ids.1 ≠ "" ∧ ids.2.1 ≠ ""
            let c : HCtx :=
              ⟨env, b, nowIso, ev, chatId, "callback", "", nOn, dbEnabled env, ids.1, ids.2.1⟩
            withResCalls ids.2.2 (dispatchRoute c route st0)

/-! ## Daily brief (`core.py`, `build_daily_brief_text`) -/
/-- A Python `datetime.date`. -/
structure PyDate where
  y : Nat
  m : Nat
  d : Nat
  deriving DecidableEq, Repr

/-- `date` comparison (`<`). -/
def dateLt (a b : PyDate) : Bool :=
  a.y < b.y ∨ (a.y = b.y ∧ (a.m < b.m ∨ (a.m = b.m ∧ a.d < b.d)))

def isLeapYear (y : Nat) : Bool := (y % 4 = 0 ∧ y % 100 ≠ 0) ∨ y % 400 = 0

def daysInMonth (y m : Nat) : Nat :=
  if m = 2 then (if isLeapYear y then 29 else 28)
  else if m = 4 ∨ m = 6 ∨ m = 9 ∨ m = 11 then 30
  else 31

def digitsToNat (l : List Char) : Nat := l.foldl (fun a c => a * 10 + (c.toNat - 48)) 0

/-- `datetime.date.fromisoformat` on the basic `YYYY-MM-DD` form (`None`
for a `ValueError`). -/
def dateFromIso (s : String) : Option PyDate :=
  match s.data with
  | [y1, y2, y3, y4, h1, m1, m2, h2, d1, d2] =>
    if h1 = '-' ∧ h2 = '-' ∧ ([y1, y2, y3, y4, m1, m2, d1, d2].all isAsciiDigit) then
      let y := digitsToNat [y1, y2, y3, y4]
      let m := digitsToNat [m1, m2]
      let d := digitsToNat [d1, d2]
      if 1 ≤ y ∧ 1 ≤ m ∧ m ≤ 12 ∧ 1 ≤ d ∧ d ≤ daysInMonth y m then some ⟨y, m, d⟩ else none
    else none
  | _ => none

def pad2 (n : Nat) : String := if n < 10 then "0" ++ toString n else toString n

def pad4 (n : Nat) : String :=
  if n < 10 then "000" ++ toString n
  else if n < 100 then "00" ++ toString n
  else if n < 1000 then "0" ++ toString n
  else toString n

/-- `date.isoformat()`. -/
def dateIso (d : PyDate) : String := pad4 d.y ++ "-" ++ pad2 d.m ++ "-" ++ pad2 d.d

/-- `_parse_due`: tolerate `YYYY-MM-DD` or ISO datetime strings. -/
def parseDue (dueVal : Option String) : Option PyDate :=
  match dueVal with
  | none => none
  | some v =>
    let s := pyStrip v
    if s = "" then none else dateFromIso (beforeFirstChar 'T' s)

/-- `_norm_status`: `str(v or "todo").strip().lower()` with `-`/space
replaced by `_`. -/
def normStatus (v : Option String) : String :=
  let s0 := match v with
    | none => "todo"
    | some s => if s = "" then "todo" else s
  pyReplaceChar ' ' '_' (pyReplaceChar '-' '_' (pyLower (pyStrip s0)))

/-- `_clean_title`. -/
def cleanTitle (v : Option String) : String :=
  let title := pyStrip (v.getD "")
  if title = "" then "(untitled)"
  else pyStrip (pyReplaceChar '\n' ' ' (pyReplaceChar '\r' ' ' title))

/-- `_fmt_task_line`. -/
def fmtTaskLine (idx : Nat) (t : NTask) : String :=
  let title := cleanTitle t.title
  let dueTxt := match parseDue t.due with
    | some d => " (due " ++ dateIso d ++ ")"
    | none => ""
  toString idx ++ ". " ++ title ++ dueTxt

/-- `_section`: `"{title}: {count}"`, up to `limitPerSection` numbered
lines, and a `"... (+{n} more)"` suffix when truncated. -/
def sectionText (title : String) (items : List NTask) (limitPerSection : Nat) : String :=
  if items = [] then title ++ ": 0"
  else
    let shown := items.take limitPerSection
    let lines := (title ++ ": " ++ toString items.length) :: enumLines fmtTaskLine 1 shown
    let lines :=
      if items.length > shown.length then
        lines ++ ["... (+" ++ toString (items.length - shown.length) ++ " more)"]
      else lines
    joinSepStr "\n" lines

/-- Is the normalized status one of the done-like strings the brief skips? -/
def isDoneStatus (s : String) : Bool := s = "done" ∨ s = "completed" ∨ s = "complete"

/-- Is the normalized status doing-like? -/
def isDoingStatus (s : String) : Bool := s = "doing" ∨ s = "in_progress" ∨ s = "inprogress"

/-- The brief's partition loop: (overdue, due_today, doing, no_due), each
bucket in fetch order; done-like tasks are skipped. -/
def briefPartition (today : PyDate) :
    List NTask → List NTask × List NTask × List NTask × List NTask
  | [] => ([], [], [], [])
  | t :: rest =>
    let r := briefPartition today rest
    let st := normStatus t.status
    if isDoneStatus st then r
    else if isDoingStatus st then (r.1, r.2.1, t :: r.2.2.1, r.2.2.2)
    else match parseDue t.due with
      | none => (r.1, r.2.1, r.2.2.1, t :: r.2.2.2)
      | some d =>
        if dateLt d today then (t :: r.1, r.2.1, r.2.2.1, r.2.2.2)
        else if d = today then (r.1, t :: r.2.1, r.2.2.1, r.2.2.2)
        else (r.1, r.2.1, r.2.2.1, t :: r.2.2.2)

/-- The memory/relational task-line clean-up of the brief's fallback modes. -/
def briefPlainText (s : String) : String :=
  let txt0 := pyStrip s
  let txt1 := if txt0 = "" then "(untitled)" else txt0
  pyStrip (pyReplaceChar '\n' ' ' (pyReplaceChar '\r' ' ' txt1))

/-- `core.build_daily_brief_text` together with its collaborator-call
trace.  `today` is the injectable date (the `None` default takes the
current Singapore date from the wall clock, which is external to this
embedding); `limitPerSection` is the `limit_per_section` parameter
(default 5 in the source).  The `isinstance(chat_id, int)` guard is
discharged by typing. -/
def buildDailyBriefText (env : Env) (b : Backend) (chatId : Int) (st : AppState)
    (today : PyDate) (limitPerSection : Nat) : String × List BCall :=
  let ids := resolveNotionIds env b
  let notionOn := pyStrip env.notionToken ≠ "" ∧ ids.1 ≠ "" ∧ ids.2.1 ≠ ""
  let header := "Daily Brief (" ++ dateIso today ++ " SGT)"
  if notionOn then
    let tasks := b.notionListInboxTasks ids.2.1 50
    let calls := ids.2.2 ++ [BCall.notionListInboxTasks ids.2.1 50]
    if tasks = [] then (header ++ "\n\nNo open tasks. Go touch grass 🌱", calls)
    else
      let p := briefPartition today tasks
      (pyStrip (joinSepStr "\n"
        [header, "",
         sectionText "⏰ Overdue" p.1 limitPerSection, "",
         sectionText "📌 Due Today" p.2.1 limitPerSection, "",
         sectionText "🛠️ Doing" p.2.2.1 limitPerSection, "",
         sectionText "📥 No Due Date / Next Up" p.2.2.2 limitPerSection]), calls)
  else if dbEnabled env then
    let openTasks := b.dbListOpenTasks chatId 20
    let calls := ids.2.2 ++ [BCall.dbInitDb, BCall.dbListOpenTasks chatId 20]
    if openTasks = [] then (header ++ "\n\nNo open tasks. Go touch grass 🌱", calls)
    else
      let shown := openTasks.take limitPerSection
      let lines := [header, "", "Open tasks: " ++ toString openTasks.length] ++
        enumLines (fun i t => toString i ++ ". " ++ briefPlainText t.text) 1 shown
      let lines :=
        if openTasks.length > limitPerSection then
          lines ++ ["... (+" ++ toString (openTasks.length - limitPerSection) ++ " more)"]
        else lines
      (pyStrip (joinSepStr "\n"
        (lines ++ ["", "Tip: connect Notion to get Overdue/Due Today/Doing sections."])), calls)
  else
    let openTasks := (st.tasks chatId).filter (fun t => ¬ t.done)
    if openTasks = [] then (header ++ "\n\nNo open tasks. Go touch grass 🌱", ids.2.2)
    else
      let tail := lastN 20 openTasks
      let shown := tail.take limitPerSection
      let lines := [header, "", "Open tasks: " ++ toString openTasks.length] ++
        enumLines (fun i t => toString i ++ ". " ++ briefPlainText t.text) 1 shown
      let lines :=
        if tail.length > limitPerSection then
          lines ++ ["... (+" ++ toString (tail.length - limitPerSection) ++ " more)"]
        else lines
      (pyStrip (joinSepStr "\n"
        (lines ++ ["", "Tip: connect Notion to get Overdue/Due Today/Doing sections."])), ids.2.2)

/-! ## Concrete fixtures for claim witnesses and counterexamples -/
/-- The empty conversation state. -/
def wState0 : AppState := ⟨fun _ => [], fun _ => [], 0, fun _ _ => none, fun _ => none⟩

/-- An environment with no backend configured (in-memory fallback). -/
def wEnvMem : Env := ⟨"", "", "", ""⟩

/-- An environment with the Notion (document-store) backend configured. -/
def wEnvNotion : Env := ⟨"", "t", "n", "k"⟩

/-- A benign collaborator oracle: every write succeeds. -/
def wBackend : Backend where
  dbGetSetting := fun _ => none
  dbCreateNote := fun _ _ => "41"
  dbCreateTask := fun _ _ => "42"
  dbListOpenTasks := fun _ _ => []
  dbMarkTaskDone := fun _ _ => true
  dbSearchNotesTasks := fun _ _ _ => []
  notionCreateNote := fun _ _ _ => "page_n"
  notionCreateTask := fun _ _ => "page_1"
  notionListOpenTasks := fun _ _ => []
  notionListInboxTasks := fun _ _ => []
  notionMarkTaskDone := fun _ => true
  notionUpdateTaskTitle := fun _ _ => true
  notionPageUrl := fun pid => "https://www.notion.so/" ++ pid

/-- A collaborator oracle whose mark-done and title-update calls fail. -/
def wBackendFail : Backend := { wBackend with
  notionMarkTaskDone := fun _ => false
  notionUpdateTaskTitle := fun _ _ => false }

/-- The oracle of the repository's grouping test: three open tasks with
duplicate, out-of-order titles and descriptions. -/
def wGroupBackend : Backend := { wBackend with
  notionListOpenTasks := fun _ _ =>
    [⟨"p1", some "Grocery", some "Buy Milk", none, some "todo"⟩,
     ⟨"p2", some "Work", some "Print Payslip", none, some "doing"⟩,
     ⟨"p3", some "Grocery", some "Buy Eggs x 2", none, some "todo"⟩] }

/-- A state with an active `done_pick` interaction for chat 123 over a
cached two-task list at message 99. -/
def wStatePick : AppState :=
  ⟨fun _ => [], fun _ => [], 0,
   fun c m => if c = 123 ∧ m = 99 then
       some ⟨"today", [⟨"t1", "Task 1", none, "todo"⟩, ⟨"t2", "Task 2", none, "todo"⟩], "x"⟩
     else none,
   fun c => if c = 123 then some ⟨"done_pick", some 99, none, none⟩ else none⟩

/-- A state with an active `done_pick` interaction for chat 5 over a cached
one-task list (task id `t1`) at message 9. -/
def wStateFail : AppState :=
  ⟨fun _ => [], fun _ => [], 0,
   fun c m => if c = 5 ∧ m = 9 then
       some ⟨"today", [⟨"t1", "A", none, "todo"⟩], "x"⟩
     else none,
   fun c => if c = 5 then some ⟨"done_pick", some 9, none, none⟩ else none⟩

/-- A state with an `edit_new_text` interaction for chat 5 on task `t1`
at source message 9. -/
def wStateEditNew : AppState :=
  ⟨fun _ => [], fun _ => [], 0, fun _ _ => none,
   fun c => if c = 5 then some ⟨"edit_new_text", some 9, some "t1", some 1⟩ else none⟩

/-- A message event with its route already computed by `route_text`. -/
def wMsg (chat : Int) (mid : Int) (t : String) : Event :=
  ⟨"message", some chat, some 999, some mid, some t, some (routeText t), none⟩

/-! ## C8: the daily-brief bucket partition, stated against the claim's
bucket descriptions -/
/-- The four brief buckets as the claim describes them. -/
inductive BriefBucket where
  | overdue
  | dueToday
  | doing
  | noDue
  deriving DecidableEq, Repr

/-- The claim's bucket assignment: Doing when the normalized status is
doing-like; otherwise by the parsed due date — Overdue (due < today),
Due Today (due = today), No-Due/Next-Up (no date or future date).
Unrecognized statuses fall through to the due-date logic. -/
def bucketOf (today : PyDate) (t : NTask) : BriefBucket :=
  if isDoingStatus (normStatus t.status) then .doing
  else match parseDue t.due with
    | none => .noDue
    | some d =>
      if dateLt d today then .overdue
      else if d = today then .dueToday
      else .noDue

/-- The claim's section rendering: a `"{label}: {count}"` header, at most
`lim` numbered lines, and a `"... (+{n} more)"` suffix when truncated. -/
def sectionSpec (label : String) (items : List NTask) (lim : Nat) : String :=
  if items = [] then label ++ ": 0"
  else
    joinSepStr "\n"
      (((label ++ ": " ++ toString items.length) :: enumLines fmtTaskLine 1 (items.take lim)) ++
        (if lim < items.length then ["... (+" ++ toString (items.length - lim) ++ " more)"]
         else []))

/-- The brief-witness oracle: one overdue, one doing (via `In Progress`
normalization), one due-today, one unrecognized-status task. -/
def wBriefBackend : Backend := { wBackend with notionListInboxTasks := fun _ _ =>
  [⟨"a0", some "A", none, some "2026-01-01", some "todo"⟩,
   ⟨"a1", some " My Task ", none, some "2026-01-05T10:00:00", some "In Progress"⟩,
   ⟨"a2", none, none, some "2026-02-06", some "todo"⟩,
   ⟨"a4", some "Q", none, none, some "weird"⟩] }

theorem dropWhile_dropWhile (p : α → Bool) (l : List α) :
    (l.dropWhile p).dropWhile p = l.dropWhile p := by
  induction l with
  | nil => rfl
  | cons a as ih =>
    by_cases h : p a
    · simp [List.dropWhile_cons, h, ih]
    · simp [List.dropWhile_cons, h]

theorem stripWith_idem (p : α → Bool) (l : List α) :
    stripWith p (stripWith p l) = stripWith p l := by
  unfold stripWith
  set A := l.dropWhile p with hA
  set B := A.reverse.dropWhile p with hB
  have hBdrop : B.reverse.dropWhile p = B.reverse := by
    rcases hBe : B.reverse with _ | ⟨c0, crest⟩
    · simp [hBe]
    · have hrevne : B.reverse ≠ [] := by rw [hBe]; simp
      have hBne : B ≠ [] := by
        intro hc
        rw [hc] at hrevne
        exact hrevne rfl
      have hArev : A.reverse ≠ [] := by
        intro hc
        exact hBne (by rw [hB, hc]; rfl)
      have hAne : A ≠ [] := by simpa using hArev
      have hsuf : B <:+ A.reverse := by rw [hB]; exact List.dropWhile_suffix p
      have hhead : p (B.reverse.head hrevne) = false := by
        rw [List.head_reverse]
        rw [hsuf.getLast hBne]
        rw [List.getLast_reverse hArev]
        exact List.head_dropWhile_not p l hAne
      have hc0 : p c0 = false := by
        have h2 : B.reverse.head hrevne = c0 := by
          rw [List.head_eq_iff_head?_eq_some, hBe]
          rfl
        rw [h2] at hhead
        exact hhead
      simp [List.dropWhile_cons, hc0]
  rw [hBdrop, List.reverse_reverse, hB, dropWhile_dropWhile]

-- hex roundtrip

theorem hexVal_hexDigit (n : Nat) (h : n < 16) : hexVal (hexDigit n) = n := by
  unfold hexVal hexDigit
  by_cases h10 : n < 10
  · rw [if_pos h10, if_pos (by omega : 48 ≤ 48 + n ∧ 48 + n ≤ 57)]
    omega
  · rw [if_neg h10, if_neg (by omega : ¬ (48 ≤ 55 + n ∧ 55 + n ≤ 57)),
      if_pos (by omega : 65 ≤ 55 + n ∧ 55 + n ≤ 70)]
    omega

theorem isHexDigitByte_hexDigit (n : Nat) (h : n < 16) : isHexDigitByte (hexDigit n) = true := by
  unfold isHexDigitByte hexDigit
  by_cases h10 : n < 10
  · rw [if_pos h10]
    simp only [decide_eq_true_eq]
    omega
  · rw [if_neg h10]
    simp only [Bool.or_eq_true, decide_eq_true_eq]
    omega

theorem unquotePlus_nil : unquotePlus [] = [] := rfl

theorem unquotePlus_cons_plus (rest : List Nat) : unquotePlus (43 :: rest) = 32 :: unquotePlus rest := by
  rw [unquotePlus]
  simp

theorem unquotePlus_cons_other (c : Nat) (rest : List Nat) (h43 : c ≠ 43) (h37 : c ≠ 37) :
    unquotePlus (c :: rest) = c :: unquotePlus rest := by
  rw [unquotePlus]
  simp [h43, h37]

theorem unquotePlus_cons_pct_hex (a b : Nat) (rest : List Nat)
    (ha : isHexDigitByte a = true) (hb : isHexDigitByte b = true) :
    unquotePlus (37 :: a :: b :: rest) = (16 * hexVal a + hexVal b) :: unquotePlus rest := by
  rw [unquotePlus]
  simp [ha, hb]

-- unquote of quote

theorem unquote_quote_append (v rest : List Nat) (hv : ∀ b ∈ v, b < 256) :
    unquotePlus (quotePlus v ++ rest) = v ++ unquotePlus rest := by
  induction v with
  | nil => simp [quotePlus]
  | cons b v' ih =>
    have hb : b < 256 := hv b (by simp)
    have hv' : ∀ x ∈ v', x < 256 := fun x hx => hv x (by simp [hx])
    rw [quotePlus, List.flatMap_cons, List.append_assoc]
    by_cases h32 : b = 32
    · subst h32
      rw [show quotePlusByte 32 = [43] from rfl, List.singleton_append, unquotePlus_cons_plus,
        ← quotePlus, ih hv']
      rfl
    · by_cases hsafe : isSafeByte b
      · have hb43 : b ≠ 43 := by intro hc; subst hc; simp [isSafeByte] at hsafe
        have hb37 : b ≠ 37 := by intro hc; subst hc; simp [isSafeByte] at hsafe
        rw [show quotePlusByte b = [b] by unfold quotePlusByte; rw [if_neg h32, if_pos hsafe],
          List.singleton_append, unquotePlus_cons_other b _ hb43 hb37, ← quotePlus, ih hv']
        rfl
      · rw [show quotePlusByte b = [37, hexDigit (b / 16), hexDigit (b % 16)] by
            unfold quotePlusByte; rw [if_neg h32, if_neg hsafe]]
        simp only [List.cons_append, List.nil_append]
        have e0 : unquotePlus (37 :: hexDigit (b / 16) :: hexDigit (b % 16) ::
            (v'.flatMap quotePlusByte ++ rest)) =
            (16 * hexVal (hexDigit (b / 16)) + hexVal (hexDigit (b % 16))) ::
              unquotePlus (v'.flatMap quotePlusByte ++ rest) :=
          unquotePlus_cons_pct_hex _ _ _ (isHexDigitByte_hexDigit _ (by omega))
            (isHexDigitByte_hexDigit _ (by omega))
        have e1 : hexVal (hexDigit (b / 16)) = b / 16 := hexVal_hexDigit _ (by omega)
        have e2 : hexVal (hexDigit (b % 16)) = b % 16 := hexVal_hexDigit _ (by omega)
        rw [e0, e1, e2, Nat.div_add_mod, ← quotePlus, ih hv']

theorem unquote_quote (v : List Nat) (hv : ∀ b ∈ v, b < 256) :
    unquotePlus (quotePlus v) = v := by
  have h := unquote_quote_append v [] hv
  rw [List.append_nil] at h
  rw [h, unquotePlus_nil, List.append_nil]

theorem dropWhile_eq_self_cons {p : α → Bool} {c : α} {t : List α} (h : p c = false) :
    (c :: t).dropWhile p = c :: t := by
  simp [List.dropWhile_cons, h]

theorem dropWhile_eq_self_of_head {p : α → Bool} {l : List α}
    (h : ∀ c, l.head? = some c → p c = false) : l.dropWhile p = l := by
  cases l with
  | nil => rfl
  | cons c t => exact dropWhile_eq_self_cons (h c rfl)

theorem bstrip_eq_self_of_ends {l : List Nat} (h1 : l.dropWhile isWsByte = l)
    (h2 : l.reverse.dropWhile isWsByte = l.reverse) : bstrip l = l := by
  unfold bstrip stripWith
  rw [h1, h2, List.reverse_reverse]

theorem stripWith_dropWhile (p : α → Bool) (l : List α) :
    (stripWith p l).dropWhile p = stripWith p l := by
  have h := stripWith_idem p l
  unfold stripWith at h ⊢
  -- reuse: stripWith p l's head satisfies ¬p
  rcases he : ((l.dropWhile p).reverse.dropWhile p).reverse with _ | ⟨c, t⟩
  · rfl
  · have hne : ((l.dropWhile p).reverse.dropWhile p).reverse ≠ [] := by rw [he]; simp
    have hd : p c = false := by
      have hh : ((l.dropWhile p).reverse.dropWhile p).reverse.head hne = c := by
        rw [List.head_eq_iff_head?_eq_some, he]
        rfl
      rw [← hh]
      rw [List.head_reverse]
      have hsuf : (l.dropWhile p).reverse.dropWhile p <:+ (l.dropWhile p).reverse :=
        List.dropWhile_suffix p
      have hBne : (l.dropWhile p).reverse.dropWhile p ≠ [] := by
        intro hc
        rw [hc] at he
        simp at he
      rw [hsuf.getLast hBne]
      have hArev : (l.dropWhile p).reverse ≠ [] := by
        intro hc
        exact hBne (by rw [hc]; rfl)
      have hAne : l.dropWhile p ≠ [] := by simpa using hArev
      rw [List.getLast_reverse hArev]
      exact List.head_dropWhile_not p l hAne
    rw [he] at *
    exact dropWhile_eq_self_cons hd

theorem hexDigit_range (n : Nat) (h : n < 16) :
    (48 ≤ hexDigit n ∧ hexDigit n ≤ 57) ∨ (65 ≤ hexDigit n ∧ hexDigit n ≤ 70) := by
  unfold hexDigit
  by_cases h10 : n < 10
  · rw [if_pos h10]; omega
  · rw [if_neg h10]; omega

theorem isWsByte_false_of (b : Nat) (h1 : 33 ≤ b) : isWsByte b = false := by
  unfold isWsByte
  simp only [Bool.or_eq_false_iff, decide_eq_false_iff_not]
  omega

theorem quotePlus_clean (v : List Nat) (hv : ∀ b ∈ v, b < 256) :
    ∀ x ∈ quotePlus v, x ≠ 124 ∧ x ≠ 61 ∧ isWsByte x = false := by
  intro x hx
  rw [quotePlus, List.mem_flatMap] at hx
  obtain ⟨b, hbv, hxb⟩ := hx
  have hb : b < 256 := hv b hbv
  unfold quotePlusByte at hxb
  by_cases h32 : b = 32
  · rw [if_pos h32] at hxb
    rw [List.mem_singleton] at hxb
    subst hxb
    exact ⟨by omega, by omega, by decide⟩
  · rw [if_neg h32] at hxb
    by_cases hsafe : isSafeByte b
    · rw [if_pos hsafe] at hxb
      rw [List.mem_singleton] at hxb
      subst hxb
      unfold isSafeByte at hsafe
      simp only [Bool.or_eq_true, decide_eq_true_eq] at hsafe
      exact ⟨by omega, by omega, isWsByte_false_of _ (by omega)⟩
    · rw [if_neg hsafe] at hxb
      have r1 := hexDigit_range (b / 16) (by omega)
      have r2 := hexDigit_range (b % 16) (by omega)
      simp only [List.mem_cons, List.mem_singleton, List.not_mem_nil, or_false] at hxb
      rcases hxb with h | h | h <;> subst h
      · exact ⟨by omega, by omega, isWsByte_false_of _ (by omega)⟩
      · exact ⟨by omega, by omega, isWsByte_false_of _ (by omega)⟩
      · exact ⟨by omega, by omega, isWsByte_false_of _ (by omega)⟩

theorem splitOnByteAux_append (sep : Nat) (x r acc : List Nat) (hx : ∀ b ∈ x, b ≠ sep) :
    splitOnByteAux sep (x ++ r) acc = splitOnByteAux sep r (x.reverse ++ acc) := by
  induction x generalizing acc with
  | nil => simp
  | cons c t ih =>
    have hc : c ≠ sep := hx c (by simp)
    rw [List.cons_append, splitOnByteAux, if_neg hc, ih _ (fun b hb => hx b (by simp [hb]))]
    simp

theorem splitOnByte_joinByte (sep : Nat) (parts : List (List Nat))
    (hne : parts ≠ []) (hclean : ∀ part ∈ parts, ∀ b ∈ part, b ≠ sep) :
    splitOnByte sep (joinByte sep parts) = parts := by
  induction parts with
  | nil => exact absurd rfl hne
  | cons x xs ih =>
    rcases xs with _ | ⟨y, ys⟩
    · unfold splitOnByte joinByte
      rw [show x = x ++ [] by simp, splitOnByteAux_append sep x [] []
        (fun b hb => hclean x (by simp) b (by simpa using hb))]
      simp [splitOnByteAux]
    · unfold splitOnByte joinByte
      rw [splitOnByteAux_append sep x _ [] (fun b hb => hclean x (by simp) b hb)]
      rw [splitOnByteAux, if_pos rfl]
      simp only [List.append_nil, List.reverse_reverse]
      have := ih (by simp) (fun part hp b hb => hclean part (by simp [hp]) b hb)
      unfold splitOnByte at this
      rw [show joinByte sep (y :: ys) = joinByte sep (y :: ys) from rfl] at this
      rw [this]

theorem splitFirstByte_append (sep : Nat) (k q : List Nat) (hk : ∀ b ∈ k, b ≠ sep) :
    splitFirstByte sep (k ++ sep :: q) = (k, q) := by
  unfold splitFirstByte
  rw [Prod.mk.injEq]
  constructor
  · induction k with
    | nil => simp [List.takeWhile_cons]
    | cons c t ih =>
      rw [List.cons_append, List.takeWhile_cons, if_pos (by simp [hk c (by simp)])]
      rw [ih (fun b hb => hk b (by simp [hb]))]
  · induction k with
    | nil => simp [List.dropWhile_cons]
    | cons c t ih =>
      rw [List.cons_append, List.dropWhile_cons, if_pos (by simp [hk c (by simp)])]
      exact ih (fun b hb => hk b (by simp [hb]))

theorem dictSet_append (acc : List (List Nat × List Nat)) (k v : List Nat)
    (h : ∀ kv ∈ acc, kv.1 ≠ k) : dictSet acc k v = acc ++ [(k, v)] := by
  induction acc with
  | nil => rfl
  | cons kv0 rest ih =>
    unfold dictSet
    rw [if_neg (h kv0 (by simp))]
    rw [ih (fun kv hkv => h kv (by simp [hkv]))]
    rfl

theorem stripWith_reverse_dropWhile (p : α → Bool) (l : List α) :
    (stripWith p l).reverse.dropWhile p = (stripWith p l).reverse := by
  unfold stripWith
  rw [List.reverse_reverse]
  exact dropWhile_dropWhile p _

theorem bstrip_idem (l : List Nat) : bstrip (bstrip l) = bstrip l :=
  stripWith_idem isWsByte l

/-- A `k=quote_plus(v)` segment with a stripped nonempty key is unchanged
by a further strip. -/
theorem bstrip_segment (k' qv : List Nat) (hkne : k' ≠ [])
    (hk : k'.dropWhile isWsByte = k')
    (hqv : ∀ x ∈ qv, isWsByte x = false) :
    bstrip (k' ++ 61 :: qv) = k' ++ 61 :: qv := by
  apply bstrip_eq_self_of_ends
  · rw [List.dropWhile_append, hk, if_neg (by simp [hkne])]
  · apply dropWhile_eq_self_of_head
    intro c hc
    rw [List.head?_reverse, List.getLast?_append] at hc
    have h1 : (61 :: qv).getLast? = some ((61 :: qv).getLast (by simp)) :=
      List.getLast?_eq_getLast_of_ne_nil (by simp)
    rw [h1, Option.or_some] at hc
    have hcm : c ∈ 61 :: qv := by
      have hmem := List.getLast_mem (l := 61 :: qv) (by simp)
      rw [Option.some.inj hc] at hmem
      exact hmem
    rcases List.mem_cons.mp hcm with h | h
    · subst h; decide
    · exact hqv c h

/-- The join of nonempty parts is nonempty. -/
theorem joinByte_ne_nil (sep : Nat) (x : List Nat) (xs : List (List Nat)) (hx : x ≠ []) :
    joinByte sep (x :: xs) ≠ [] := by
  rcases xs with _ | ⟨y, ys⟩
  · simpa [joinByte]
  · unfold joinByte
    simp [hx]

/-- The last byte of a join of nonempty parts is the last byte of the last
part. -/
theorem joinByte_getLast_concat (sep : Nat) (z : List Nat) (xs : List (List Nat))
    (hxs : ∀ p ∈ xs, p ≠ []) (hz : z ≠ []) :
    (joinByte sep (xs ++ [z])).getLast? = z.getLast? := by
  induction xs with
  | nil => rfl
  | cons x xs' ih =>
    have hx : x ≠ [] := hxs x (by simp)
    have hjne : joinByte sep (xs' ++ [z]) ≠ [] := by
      rcases xs' with _ | ⟨w, ws⟩
      · simpa [joinByte]
      · exact joinByte_ne_nil sep w _ (hxs w (by simp))
    rw [show (x :: xs') ++ [z] = x :: (xs' ++ [z]) from rfl]
    rw [show joinByte sep (x :: (xs' ++ [z])) = x ++ sep :: joinByte sep (xs' ++ [z]) from by
      rcases hxe : xs' ++ [z] with _ | ⟨w, ws⟩
      · simp at hxe
      · rfl]
    rw [List.getLast?_append]
    rw [show (sep :: joinByte sep (xs' ++ [z])) = [sep] ++ joinByte sep (xs' ++ [z]) from rfl]
    rw [List.getLast?_append]
    have h2 : (joinByte sep (xs' ++ [z])).getLast? = z.getLast? :=
      ih (fun p hp => hxs p (by simp [hp]))
    rw [h2]
    have : ∃ c, z.getLast? = some c := by
      rcases z with _ | ⟨a, t⟩
      · exact absurd rfl hz
      · exact ⟨_, List.getLast?_eq_getLast_of_ne_nil (by simp)⟩
    obtain ⟨c, hcz⟩ := this
    rw [hcz]
    rfl

/-- The last byte of a `k=quote_plus(v)` segment is `=` or a quoted byte,
never whitespace. -/
theorem segment_getLast_not_ws (k' qv : List Nat) (hqv : ∀ x ∈ qv, isWsByte x = false) :
    ∀ c, (k' ++ 61 :: qv).getLast? = some c → isWsByte c = false := by
  intro c hc
  rw [List.getLast?_append] at hc
  have h1 : (61 :: qv).getLast? = some ((61 :: qv).getLast (by simp)) :=
    List.getLast?_eq_getLast_of_ne_nil (by simp)
  rw [h1, Option.or_some] at hc
  have hmem := List.getLast_mem (l := 61 :: qv) (by simp)
  rw [Option.some.inj hc] at hmem
  rcases List.mem_cons.mp hmem with h | h
  · subst h; decide
  · exact hqv c h

/-- `encode_callback`'s loop appends one `k=quote_plus(v)` part per valid
pair. -/
theorem encodeParamStep_fold (params : List (List Nat × List Nat)) (parts0 : List (List Nat))
    (hk : ∀ kv ∈ params, bstrip kv.1 ≠ [] ∧ 124 ∉ bstrip kv.1 ∧ 61 ∉ bstrip kv.1) :
    (params.map (fun kv => (kv.1, some kv.2))).foldl encodeParamStep (.ok parts0) =
      .ok (parts0 ++ params.map (fun kv => bstrip kv.1 ++ 61 :: quotePlus kv.2)) := by
  induction params generalizing parts0 with
  | nil => simp
  | cons kv rest ih =>
    obtain ⟨h1, h2, h3⟩ := hk kv (by simp)
    rw [List.map_cons, List.foldl_cons]
    have hstep : encodeParamStep (.ok parts0) (kv.1, some kv.2) =
        .ok (parts0 ++ [bstrip kv.1 ++ 61 :: quotePlus kv.2]) := by
      show (if bstrip kv.1 = [] then (.error "param keys must be non-empty strings" :
              Except String (List (List Nat)))
            else if 124 ∈ bstrip kv.1 ∨ 61 ∈ bstrip kv.1 then
              .error "param keys must not contain pipe or equals"
            else .ok (parts0 ++ [bstrip kv.1 ++ 61 :: quotePlus kv.2])) = _
      rw [if_neg h1, if_neg (by simp [h2, h3])]
    rw [hstep]
    have ihr := ih (parts0 ++ [bstrip kv.1 ++ 61 :: quotePlus kv.2])
      (fun kv' h => hk kv' (List.mem_cons_of_mem _ h))
    rw [ihr]
    simp

/-- `parse_callback`'s loop turns a list of well-formed segments into the
corresponding ordered dict entries. -/
theorem parseParamStep_fold (params : List (List Nat × List Nat))
    (acc : List (List Nat × List Nat))
    (hk : ∀ kv ∈ params, bstrip kv.1 = kv.1 ∧ kv.1 ≠ [] ∧ 61 ∉ kv.1)
    (hv : ∀ kv ∈ params, ∀ b ∈ kv.2, b < 256)
    (hdisj : ∀ kv ∈ params, ∀ a ∈ acc, a.1 ≠ kv.1)
    (hnd : (params.map Prod.fst).Nodup) :
    (params.map (fun kv => kv.1 ++ 61 :: quotePlus kv.2)).foldl parseParamStep acc =
      acc ++ params := by
  induction params generalizing acc with
  | nil => simp
  | cons kv rest ih =>
    obtain ⟨h1, h2, h3⟩ := hk kv (by simp)
    have hdw : kv.1.dropWhile isWsByte = kv.1 := by
      conv_lhs => rw [← h1]
      conv_rhs => rw [← h1]
      exact stripWith_dropWhile isWsByte kv.1
    have hqclean := quotePlus_clean kv.2 (hv kv (by simp))
    have hseg : bstrip (kv.1 ++ 61 :: quotePlus kv.2) = kv.1 ++ 61 :: quotePlus kv.2 :=
      bstrip_segment kv.1 (quotePlus kv.2) h2 hdw (fun x hx => (hqclean x hx).2.2)
    have h61 : ∀ b ∈ kv.1, b ≠ 61 := fun b hb hc => h3 (hc ▸ hb)
    have hsplit := splitFirstByte_append 61 kv.1 (quotePlus kv.2) h61
    have hrt := unquote_quote kv.2 (hv kv (by simp))
    have hset := dictSet_append acc kv.1 kv.2 (fun a ha => hdisj kv (by simp) a ha)
    have hcond : ¬(kv.1 ++ 61 :: quotePlus kv.2 = [] ∨
        61 ∉ kv.1 ++ 61 :: quotePlus kv.2) := by
      simp only [not_or, not_not]
      exact ⟨by simp, List.mem_append_right _ (by simp)⟩
    have hstep : parseParamStep acc (kv.1 ++ 61 :: quotePlus kv.2) = acc ++ [kv] := by
      unfold parseParamStep
      rw [hseg]
      rw [if_neg hcond]
      simp only [hsplit]
      rw [h1, if_neg h2, hrt, hset]
    rw [List.map_cons, List.foldl_cons, hstep]
    have ihr := ih (acc ++ [kv])
      (fun kv' h => hk kv' (List.mem_cons_of_mem _ h))
      (fun kv' h => hv kv' (List.mem_cons_of_mem _ h))
      (fun kv' hr a ha => by
        rcases List.mem_append.mp ha with h | h
        · exact hdisj kv' (List.mem_cons_of_mem _ hr) a h
        · rw [List.mem_singleton] at h
          subst h
          intro hc
          rw [List.map_cons] at hnd
          exact (List.nodup_cons.mp hnd).1 (hc ▸ List.mem_map_of_mem Prod.fst hr))
      (by
        rw [List.map_cons] at hnd
        exact (List.nodup_cons.mp hnd).2)
    rw [ihr]
    simp

/-- A byte string with no separator splits into a single chunk. -/
theorem splitOnByte_no_sep (sep : Nat) (x : List Nat) (hx : ∀ b ∈ x, b ≠ sep) :
    splitOnByte sep x = [x] := by
  have := splitOnByte_joinByte sep [x] (by simp) (by
    intro part hp b hb
    rw [List.mem_singleton] at hp
    subst hp
    exact hx b hb)
  simpa [joinByte] using this

/-- C10 helper: every byte of a `k=quote_plus(v)` segment differs from the
pipe separator. -/
theorem segment_no_pipe (k' qv : List Nat) (hk : 124 ∉ k')
    (hqv : ∀ x ∈ qv, x ≠ 124) : ∀ b ∈ k' ++ 61 :: qv, b ≠ 124 := by
  intro b hb
  rcases List.mem_append.mp hb with h | h
  · intro hc; exact hk (hc ▸ h)
  · rcases List.mem_cons.mp h with h | h
    · subst h; omega
    · exact hqv b h

/-- C10: round-trip of the callback codec.  For an action that is nonempty
after stripping and contains no pipe, and params whose stripped keys are
nonempty, pipe- and equals-free and pairwise distinct, and whose values are
(non-`None`) byte strings, `parse_callback(encode_callback(action, params))`
returns the stripped action and exactly the same key-value pairs with the
keys stripped — no parameter is lost. -/
theorem parse_encode_callback_roundtrip (action : List Nat) (params : List (List Nat × List Nat))
    (ha1 : bstrip action ≠ []) (ha2 : 124 ∉ bstrip action)
    (hkey : ∀ kv ∈ params, bstrip kv.1 ≠ [] ∧ 124 ∉ bstrip kv.1 ∧ 61 ∉ bstrip kv.1)
    (hval : ∀ kv ∈ params, ∀ b ∈ kv.2, b < 256)
    (hnd : (params.map (fun kv => bstrip kv.1)).Nodup) :
    ∃ d, encodeCallback action (params.map (fun kv => (kv.1, some kv.2))) = .ok d ∧
      parseCallback d = .ok (bstrip action, params.map (fun kv => (bstrip kv.1, kv.2))) := by
  have hidem := bstrip_idem action
  have ha2' : ∀ b ∈ bstrip action, b ≠ 124 := fun b hb hc => ha2 (hc ▸ hb)
  by_cases hp : params = []
  · subst hp
    refine ⟨bstrip action, ?_, ?_⟩
    · unfold encodeCallback
      rw [if_neg ha1, if_neg ha2]
      simp
    · unfold parseCallback
      rw [hidem, if_neg ha1]
      simp only [splitOnByte_no_sep 124 (bstrip action) ha2', List.headD_cons,
        List.drop_succ_cons, List.drop_nil, List.foldl_nil, List.map_nil, hidem]
      rw [if_neg ha1]
  · set a0 := bstrip action with ha0
    set segs := params.map (fun kv => bstrip kv.1 ++ 61 :: quotePlus kv.2) with hsegs
    have hsegne : segs ≠ [] := by
      rw [hsegs]
      simp [hp]
    have hsegsprops : ∀ seg ∈ segs, seg ≠ [] ∧ (∀ b ∈ seg, b ≠ 124) := by
      intro seg hseg
      rw [hsegs] at hseg
      obtain ⟨kv, hkv, rfl⟩ := List.mem_map.mp hseg
      obtain ⟨hk1, hk2, _⟩ := hkey kv hkv
      have hclean := quotePlus_clean kv.2 (hval kv hkv)
      refine ⟨by simp, segment_no_pipe _ _ hk2 (fun x hx => (hclean x hx).1)⟩
    refine ⟨joinByte 124 (a0 :: segs), ?_, ?_⟩
    · unfold encodeCallback
      rw [if_neg ha1]
      rw [if_neg ha2]
      rw [if_neg (by simp [hp])]
      have hfold := encodeParamStep_fold params [a0] hkey
      rw [hfold]
      rfl
    · -- parse side
      have hd_ne : joinByte 124 (a0 :: segs) ≠ [] := joinByte_ne_nil 124 a0 segs ha1
      have hstripd : bstrip (joinByte 124 (a0 :: segs)) = joinByte 124 (a0 :: segs) := by
        apply bstrip_eq_self_of_ends
        · -- leading side
          rcases hse : segs with _ | ⟨s0, srest⟩
          · exact absurd hse hsegne
          · rw [show joinByte 124 (a0 :: s0 :: srest) =
                a0 ++ 124 :: joinByte 124 (s0 :: srest) from rfl]
            rw [List.dropWhile_append]
            have hdwa : a0.dropWhile isWsByte = a0 := by
              rw [ha0]
              exact stripWith_dropWhile isWsByte action
            rw [hdwa, if_neg (by simp [ha1])]
        · -- trailing side
          obtain ⟨si, z, hsz⟩ : ∃ si z, segs = si ++ [z] :=
            ⟨segs.dropLast, segs.getLast hsegne, (List.dropLast_append_getLast hsegne).symm⟩
          have hzmem : z ∈ segs := by
            rw [hsz]
            exact List.mem_append_right _ (by simp)
          have hzne : z ≠ [] := (hsegsprops z hzmem).1
          apply dropWhile_eq_self_of_head
          intro c hc
          rw [List.head?_reverse] at hc
          rw [hsz] at hc
          rw [show (a0 :: (si ++ [z])) = (a0 :: si) ++ [z] from rfl] at hc
          rw [joinByte_getLast_concat 124 z (a0 :: si) (by
            intro p hp
            rcases List.mem_cons.mp hp with h | h
            · subst h; exact ha1
            · refine (hsegsprops p ?_).1
              rw [hsz]
              exact List.mem_append_left _ h) hzne] at hc
          obtain ⟨kv, hkv, hkveq⟩ := List.mem_map.mp (by rw [hsegs] at hzmem; exact hzmem)
          have hkveq' : bstrip kv.1 ++ 61 :: quotePlus kv.2 = z := hkveq
          subst hkveq'
          have hclean := quotePlus_clean kv.2 (hval kv hkv)
          exact segment_getLast_not_ws _ _ (fun x hx => (hclean x hx).2.2) c hc
      have hsplitd := splitOnByte_joinByte 124 (a0 :: segs) (by simp) (by
        intro part hpart b hb
        rcases List.mem_cons.mp hpart with h | h
        · subst h; exact ha2' b hb
        · exact (hsegsprops part h).2 b hb)
      unfold parseCallback
      rw [hstripd]
      rw [if_neg hd_ne]
      simp only [hsplitd, List.headD_cons, List.drop_succ_cons, List.drop_zero,
        show bstrip a0 = a0 from by rw [ha0]; exact bstrip_idem action]
      rw [if_neg ha1]
      have hfold := parseParamStep_fold (params.map (fun kv => (bstrip kv.1, kv.2))) []
        (by
          intro kv' h
          obtain ⟨kv, hkv, rfl⟩ := List.mem_map.mp h
          obtain ⟨hk1, _, hk3⟩ := hkey kv hkv
          exact ⟨bstrip_idem kv.1, hk1, hk3⟩)
        (by
          intro kv' h
          obtain ⟨kv, hkv, rfl⟩ := List.mem_map.mp h
          exact hval kv hkv)
        (by intro kv' _ a ha; simp at ha)
        (by
          rw [List.map_map]
          exact hnd)
      rw [show (params.map (fun kv => (bstrip kv.1, kv.2))).map
            (fun kv => kv.1 ++ 61 :: quotePlus kv.2) = segs from by
          rw [List.map_map, hsegs]
          rfl] at hfold
      rw [hfold]
      simp

/-- C10 witness: a concrete round-trip at action `"pick"` and params
`{"task id": "a b"}` (space inside both key and value; the value is
`+`-encoded and decoded back). -/
theorem parse_encode_callback_roundtrip_witness :
    ∃ d, encodeCallback [112, 105, 99, 107]
        ([([116, 97, 115, 107, 32, 105, 100], [97, 32, 98])].map
          (fun kv => (kv.1, some kv.2))) = .ok d ∧
      parseCallback d = .ok (bstrip [112, 105, 99, 107],
        [([116, 97, 115, 107, 32, 105, 100], [97, 32, 98])].map
          (fun kv => (bstrip kv.1, kv.2))) :=
  parse_encode_callback_roundtrip [112, 105, 99, 107]
    [([116, 97, 115, 107, 32, 105, 100], [97, 32, 98])]
    (by decide) (by decide) (by decide) (by decide) (by decide)

/-! ## Claim theorems -/
/-- C9: for every event whose type is neither `message` nor `callback`, or
whose chat id is not an integer, `handle_event` returns the empty intent
list — no intent, no state change, no collaborator call, no exception —
for any state. -/
theorem handle_event_ill_typed_empty (env : Env) (b : Backend) (nowIso : String)
    (ev : Event) (st : AppState)
    (h : (ev.type ≠ "message" ∧ ev.type ≠ "callback") ∨ ev.chatId = none) :
    handleEvent env b nowIso ev st = ⟨st, [], [], false⟩ := by
  unfold handleEvent
  rcases h with ⟨h1, h2⟩ | h
  · rw [if_pos ⟨h1, h2⟩]
  · rw [h]
    split
    · rfl
    · rfl

/-- C9 witness: an `edited_message` event and a message event with a
missing chat id are both ignored. -/
theorem handle_event_ill_typed_empty_witness :
    handleEvent wEnvMem wBackend "now"
      ⟨"edited_message", some 1, none, none, none, none, none⟩ wState0 =
      ⟨wState0, [], [], false⟩ ∧
    handleEvent wEnvMem wBackend "now"
      ⟨"message", none, none, none, some "hi", none, none⟩ wState0 =
      ⟨wState0, [], [], false⟩ :=
  ⟨handle_event_ill_typed_empty wEnvMem wBackend "now" _ wState0
    (Or.inl ⟨by decide, by decide⟩),
   handle_event_ill_typed_empty wEnvMem wBackend "now" _ wState0 (Or.inr rfl)⟩

/-- C5 (code evaluation): `route_text` rejects `/todo` without an argument
with an error intent — there is no zero-arg wizard-entry form — and
`cancel` is not a recognized token (`/cancel` routes to
`unknown_command`); the required-argument rule does hold for `note`,
`search` and `done`. -/
theorem route_todo_noarg_cancel_bug :
    routeText "/todo" = .error "missing_args_todo" "/todo requires an argument" ∧
    routeText "/cancel" = .unknownCommand "cancel" "" ∧
    routeText "/note" = .error "missing_args_note" "/note requires an argument" ∧
    routeText "/search" = .error "missing_args_search" "/search requires an argument" ∧
    routeText "/done" = .error "missing_args_done" "/done requires an argument" := by
  refine ⟨?_, ?_, ?_, ?_, ?_⟩ <;> rfl

/-- C4 (code evaluation): `/cancel` is not handled — it routes to
`unknown_command` and the reply is "Unknown command: /cancel (try /help)",
not "Cancelled"; `AppState` has no `todo_wizard` slot at all.  (The
pending entry does end up cleared, but only through the generic
command-while-pending reset.) -/
theorem cancel_unknown_command_bug :
    routeText "/cancel" = .unknownCommand "cancel" "" ∧
    (handleEvent wEnvMem wBackend "now" (wMsg 123 1 "/cancel") wStatePick).intents =
      [mkReply 123 "Unknown command: /cancel (try /help)"] ∧
    (handleEvent wEnvMem wBackend "now" (wMsg 123 1 "/cancel") wStatePick).state.pending 123 =
      none ∧
    (handleEvent wEnvMem wBackend "now" (wMsg 123 1 "/cancel") wStatePick).calls = [] := by
  refine ⟨rfl, rfl, ?_, rfl⟩
  rfl

/-- C1 (code evaluation): with the Notion backend active, `/todo Grocery`
(title, no separator) creates the task immediately and replies
"Added task (Notion): …" — it does not prompt for a description, and
`AppState` has no `todo_wizard` slot to set; `/todo` with no argument is
routed to a missing-argument error, not to a title picker. -/
theorem todo_no_wizard_bug :
    (handleEvent wEnvNotion wBackend "now" (wMsg 7 12 "/todo Grocery") wState0).intents =
      [Intent.reply 7 "Added task (Notion): page_1"
        (some (openInNotionMarkup "https://www.notion.so/page_1")) (some true)] ∧
    (handleEvent wEnvNotion wBackend "now" (wMsg 7 12 "/todo Grocery") wState0).calls =
      [.notionCreateTask "k" "Grocery"] ∧
    routeText "/todo" = .error "missing_args_todo" "/todo requires an argument" := by
  refine ⟨rfl, rfl, rfl⟩

/-- C7 (code evaluation): `/today` with the Notion backend renders the
fetched tasks in fetch order, one `"{i}. {title}"` line each — no
case-insensitive grouping by (title, description), no sorting, and no
`" | {description}"` suffix — contradicting the grouping the claim (and the
repository's own test) describes.  The fetch limit 5 and the absence of
backend ids in the text do hold. -/
theorem today_inbox_no_grouping_bug :
    (handleEvent wEnvNotion wGroupBackend "now" (wMsg 1 10 "/today") wState0).intents =
      [Intent.reply 1 "Open tasks: 3\n1. Grocery\n2. Work\n3. Grocery"
        (some twoButtonTaskListMarkup) (some true),
       Intent.cacheTaskList 1 "today"
        [⟨"p1", "Grocery", none, "todo"⟩, ⟨"p2", "Work", none, "doing"⟩,
         ⟨"p3", "Grocery", none, "todo"⟩]
        "Open tasks: 3\n1. Grocery\n2. Work\n3. Grocery"] ∧
    (handleEvent wEnvNotion wGroupBackend "now" (wMsg 1 10 "/today") wState0).calls =
      [.notionListOpenTasks "k" 5] := by
  refine ⟨rfl, rfl⟩

/-- C3 counterexample: Notion backend active, `mark_task_done` returns
false; replying "1" to the active done-pick produces the "could not mark
done" reply but CLEARS the pending entry — the claim's "pending is NOT
cleared on failure" is false on the code. -/
theorem pending_cleared_on_failure_cex :
    wStateFail.pending 5 = some ⟨"done_pick", some 9, none, none⟩ ∧
    wBackendFail.notionMarkTaskDone "t1" = false ∧
    (handleEvent wEnvNotion wBackendFail "now" (wMsg 5 10 "1") wStateFail).intents =
      [mkReply 5 "Could not mark done (Notion). Try /today again."] ∧
    (handleEvent wEnvNotion wBackendFail "now" (wMsg 5 10 "1") wStateFail).state.pending 5 =
      none := by
  refine ⟨rfl, rfl, rfl, ?_⟩
  rfl

theorem pyStrip_idem (s : String) : pyStrip (pyStrip s) = pyStrip s := by
  unfold pyStrip pyStripList
  exact congrArg String.mk (stripWith_idem isPyWs s.data)

theorem dbEnabled_false {env : Env} (h : pyStrip env.databaseUrl = "") :
    dbEnabled env = false := by
  unfold dbEnabled
  simp [h]

theorem resolveNotionIds_no_db (env : Env) (b : Backend) (h : pyStrip env.databaseUrl = "") :
    resolveNotionIds env b = (pyStrip env.notionNotesDbId, pyStrip env.notionTasksDbId, []) := by
  unfold resolveNotionIds
  rw [if_neg]
  intro hc
  have h1 := hc.1
  rw [dbEnabled_false h] at h1
  exact absurd h1 (by simp)

theorem not_slash_of_digit {s : String} (h : pyIsDigit s = true) :
    pyStartsWithChar '/' s = false := by
  unfold pyIsDigit at h
  unfold pyStartsWithChar
  rcases hd : s.data with _ | ⟨c, rest⟩
  · simp [hd] at h
  · rw [hd] at h
    simp only [Bool.and_eq_true, decide_eq_true_eq, List.all_cons] at h
    have hc : isAsciiDigit c = true := h.2.1
    unfold isAsciiDigit at hc
    simp only [Bool.and_eq_true, decide_eq_true_eq] at hc
    have : c ≠ '/' := by
      intro he
      subst he
      have := hc.1
      simp [Char.le_def] at this
    simp [this]

theorem tasks_ne_nil_of_le {l : List CTask} {k : Nat} (h1 : 1 ≤ k) (h2 : k ≤ l.length) :
    l ≠ [] := by
  intro hc
  subst hc
  simp at h2
  omega

theorem interceptPending_done_pick_ok (c : HCtx) (m : Int) (tidf : Option String)
    (itf : Option Nat) (st : AppState) (cache : CacheEntry)
    (hmsg : pyStrip c.msgText = c.msgText) (hdig : pyIsDigit c.msgText = true)
    (hcache : st.renderCache c.chatId m = some cache)
    (hk1 : 1 ≤ strToNat c.msgText) (hk2 : strToNat c.msgText ≤ cache.tasks.length)
    (hid : pyStrip (cache.tasks.getD (strToNat c.msgText - 1) ⟨"", "", none, ""⟩).id ≠ "")
    (hnotion : c.notionOn = true)
    (hok : c.b.notionMarkTaskDone
      (pyStrip (cache.tasks.getD (strToNat c.msgText - 1) ⟨"", "", none, ""⟩).id) = true) :
    interceptPending c ⟨"done_pick", some m, tidf, itf⟩ st =
      some ⟨popPending st c.chatId,
        [.edit c.chatId m
          (some (pyStrip (cache.tasks.getD (strToNat c.msgText - 1) ⟨"", "", none, ""⟩).id))
          none],
        [.notionMarkTaskDone
          (pyStrip (cache.tasks.getD (strToNat c.msgText - 1) ⟨"", "", none, ""⟩).id)],
        false⟩ := by
  unfold interceptPending
  rw [hmsg]
  simp only []
  rw [if_pos (Or.inl (show pyStrip "done_pick" = "done_pick" from rfl))]
  rw [if_neg (by simp [hdig])]
  unfold getCachedTasks
  simp only []
  rw [hcache]
  simp only []
  rw [if_neg (tasks_ne_nil_of_le hk1 hk2)]
  rw [if_neg (by omega)]
  rw [if_neg hid]
  rw [if_pos (show pyStrip "done_pick" = "done_pick" from rfl)]
  rw [if_pos hnotion]
  rw [if_neg (not_not_intro hok)]
  unfold finishDonePick
  rfl

/-- C2: with the document-store (Notion) backend active and
`pending[chat] = {mode: done_pick, source_message_id: m}` over a cached
task list of length `L` at `(chat, m)`, a plain-text reply that is the bare
integer `k` with `1 ≤ k ≤ L` marks the `k`-th cached task done through the
backend exactly once (the trace is that single call), removes
`pending[chat]`, and returns exactly one `edit` intent carrying the source
message id and `remove_task_id` equal to that task's id. -/
theorem done_pick_valid (env : Env) (b : Backend) (nowIso : String)
    (chat : Int) (uid mid : Option Int) (m : Int) (s : String) (st : AppState)
    (cache : CacheEntry) (tidf : Option String) (itf : Option Nat)
    (hdb : pyStrip env.databaseUrl = "")
    (htok : pyStrip env.notionToken ≠ "")
    (hnid : pyStrip env.notionNotesDbId ≠ "")
    (htid : pyStrip env.notionTasksDbId ≠ "")
    (hpend : st.pending chat = some ⟨"done_pick", some m, tidf, itf⟩)
    (hcache : st.renderCache chat m = some cache)
    (hs : pyStrip s = s) (hdig : pyIsDigit s = true)
    (hk1 : 1 ≤ strToNat s) (hk2 : strToNat s ≤ cache.tasks.length)
    (hid : pyStrip (cache.tasks.getD (strToNat s - 1) ⟨"", "", none, ""⟩).id ≠ "")
    (hok : b.notionMarkTaskDone
      (pyStrip (cache.tasks.getD (strToNat s - 1) ⟨"", "", none, ""⟩).id) = true) :
    handleEvent env b nowIso ⟨"message", some chat, uid, mid, some s, none, none⟩ st =
      ⟨popPending st chat,
       [.edit chat m
         (some (pyStrip (cache.tasks.getD (strToNat s - 1) ⟨"", "", none, ""⟩).id)) none],
       [.notionMarkTaskDone (pyStrip (cache.tasks.getD (strToNat s - 1) ⟨"", "", none, ""⟩).id)],
       false⟩ ∧
    (popPending st chat).pending chat = none := by
  constructor
  · unfold handleEvent
    rw [if_neg (by simp)]
    show (if ("message" : String) = "message" then _ else _) = _
    rw [if_pos rfl]
    simp only [Option.getD_some, hs, resolveNotionIds_no_db env b hdb, Option.getD_none]
    rw [hpend]
    rw [if_neg (by
      intro hc
      have h2 := hc.2
      rw [not_slash_of_digit hdig] at h2
      simp at h2)]
    simp only [routeIsText, if_pos rfl]
    rw [interceptPending_done_pick_ok _ m tidf itf st cache hs hdig hcache hk1 hk2 hid
      (by simp only [decide_eq_true_eq]; exact ⟨htok, hnid, htid⟩) hok]
    unfold withResCalls
    rfl
  · unfold popPending
    simp

theorem interceptPending_invalid (c : HCtx) (m : Int) (md : String) (tidf : Option String)
    (itf : Option Nat) (st : AppState) (cache : CacheEntry)
    (hmd : md = "done_pick" ∨ md = "edit_pick")
    (hmsg : pyStrip c.msgText = c.msgText)
    (hcache : st.renderCache c.chatId m = some cache) (hne : cache.tasks ≠ [])
    (hinv : pyIsDigit c.msgText = false ∨
      (strToNat c.msgText = 0 ∨ strToNat c.msgText > cache.tasks.length)) :
    interceptPending c ⟨md, some m, tidf, itf⟩ st =
      some ⟨st,
        [mkReply c.chatId (if pyIsDigit c.msgText then
            "Invalid number. Choose 1 to " ++ toString cache.tasks.length ++ "."
          else "Reply with the item number (e.g. 2).")],
        [], false⟩ := by
  have hstr : pyStrip md = md := by
    rcases hmd with h | h <;> subst h <;> rfl
  unfold interceptPending
  rw [hmsg, hstr]
  rw [if_pos hmd]
  rcases hd : pyIsDigit c.msgText with _ | _
  · rw [if_pos (by simp [hd])]
    rw [if_neg (by simp [hd])]
  · rw [if_neg (by simp [hd])]
    unfold getCachedTasks
    simp only []
    rw [hcache]
    simp only []
    rw [if_neg hne]
    have hrange : strToNat c.msgText < 1 ∨ strToNat c.msgText > cache.tasks.length := by
      rcases hinv with h | h
      · rw [hd] at h
        simp at h
      · omega
    rw [if_pos hrange]
    rw [if_pos (by simp [hd])]

/-- C6: while `pending[chat]` is in mode `done_pick` or `edit_pick` over a
non-empty cached task list of length `L`, a plain-text reply that is not a
bare digit string, or is "0", or exceeds `L`, yields exactly one re-prompt
reply, makes no collaborator call, and leaves the whole state — in
particular `pending[chat]` — exactly as it was. -/
theorem invalid_pick_reply_keeps_pending (env : Env) (b : Backend) (nowIso : String)
    (chat : Int) (uid mid : Option Int) (m : Int) (md s : String) (st : AppState)
    (cache : CacheEntry) (tidf : Option String) (itf : Option Nat)
    (hdb : pyStrip env.databaseUrl = "")
    (hmd : md = "done_pick" ∨ md = "edit_pick")
    (hpend : st.pending chat = some ⟨md, some m, tidf, itf⟩)
    (hcache : st.renderCache chat m = some cache) (hne : cache.tasks ≠ [])
    (hs : pyStrip s = s) (hslash : pyStartsWithChar '/' s = false)
    (hinv : pyIsDigit s = false ∨ (strToNat s = 0 ∨ strToNat s > cache.tasks.length)) :
    handleEvent env b nowIso ⟨"message", some chat, uid, mid, some s, none, none⟩ st =
      ⟨st,
       [mkReply chat (if pyIsDigit s then
           "Invalid number. Choose 1 to " ++ toString cache.tasks.length ++ "."
         else "Reply with the item number (e.g. 2).")],
       [], false⟩ := by
  unfold handleEvent
  rw [if_neg (by simp)]
  show (if ("message" : String) = "message" then _ else _) = _
  rw [if_pos rfl]
  simp only [Option.getD_some, hs, resolveNotionIds_no_db env b hdb, Option.getD_none]
  rw [hpend]
  rw [if_neg (by
    intro hc
    have h2 := hc.2
    rw [hslash] at h2
    simp at h2)]
  simp only [routeIsText, if_pos rfl]
  rw [interceptPending_invalid _ m md tidf itf st cache hmd hs hcache hne hinv]
  unfold withResCalls
  rfl

theorem interceptPending_done_pick_fail (c : HCtx) (m : Int) (tidf : Option String)
    (itf : Option Nat) (st : AppState) (cache : CacheEntry)
    (hmsg : pyStrip c.msgText = c.msgText) (hdig : pyIsDigit c.msgText = true)
    (hcache : st.renderCache c.chatId m = some cache)
    (hk1 : 1 ≤ strToNat c.msgText) (hk2 : strToNat c.msgText ≤ cache.tasks.length)
    (hid : pyStrip (cache.tasks.getD (strToNat c.msgText - 1) ⟨"", "", none, ""⟩).id ≠ "")
    (hnotion : c.notionOn = true)
    (hfail : c.b.notionMarkTaskDone
      (pyStrip (cache.tasks.getD (strToNat c.msgText - 1) ⟨"", "", none, ""⟩).id) = false) :
    interceptPending c ⟨"done_pick", some m, tidf, itf⟩ st =
      some ⟨popPending st c.chatId,
        [mkReply c.chatId "Could not mark done (Notion). Try /today again."],
        [.notionMarkTaskDone
          (pyStrip (cache.tasks.getD (strToNat c.msgText - 1) ⟨"", "", none, ""⟩).id)],
        false⟩ := by
  unfold interceptPending
  rw [hmsg]
  simp only []
  rw [if_pos (Or.inl (show pyStrip "done_pick" = "done_pick" from rfl))]
  rw [if_neg (by simp [hdig])]
  unfold getCachedTasks
  simp only []
  rw [hcache]
  simp only []
  rw [if_neg (tasks_ne_nil_of_le hk1 hk2)]
  rw [if_neg (by omega)]
  rw [if_neg hid]
  rw [if_pos (show pyStrip "done_pick" = "done_pick" from rfl)]
  rw [if_pos hnotion]
  rw [if_pos (by
    intro h
    rw [hfail] at h
    exact absurd h (by decide))]

theorem interceptPending_edit_new_text (c : HCtx) (m : Int) (tid : String) (n : Nat)
    (st : AppState)
    (hmsg : pyStrip c.msgText = c.msgText) (hne : c.msgText ≠ "")
    (hnotion : c.notionOn = true) :
    interceptPending c ⟨"edit_new_text", some m, some tid, some n⟩ st =
      some ⟨popPending st c.chatId,
        [.edit c.chatId m none (some ⟨pyStrip tid, c.msgText⟩)],
        [.notionUpdateTaskTitle (pyStrip tid) c.msgText],
        false⟩ := by
  unfold interceptPending
  rw [hmsg]
  simp only []
  rw [if_neg (by
    intro hc
    rcases hc with h | h <;> simp [pyStrip] at h <;> revert h <;> decide)]
  rw [if_pos (show pyStrip "edit_new_text" = "edit_new_text" from rfl)]
  rw [if_neg hne]
  rw [if_pos hnotion]
  rfl

/-- C3 amended: backend write failures do NOT leave the pending interaction
retryable in place.  (1) When mark-task-done returns false in a valid
done-pick, the handler replies "Could not mark done (Notion). Try /today
again." and CLEARS `pending[chat]` — the user must re-run the list
command.  (2) The title-update call's boolean result is ignored entirely:
even when it returns false the flow proceeds as success, clearing
`pending[chat]` and emitting the `edit` intent, with no failure reply. -/
theorem backend_failure_clears_pending (env : Env) (b : Backend) (nowIso : String)
    (chat : Int) (uid mid : Option Int) (m : Int) (s : String) (st : AppState)
    (cache : CacheEntry) (tidf : Option String) (itf : Option Nat) (tid : String) (n : Nat)
    (hdb : pyStrip env.databaseUrl = "")
    (htok : pyStrip env.notionToken ≠ "")
    (hnid : pyStrip env.notionNotesDbId ≠ "")
    (htid : pyStrip env.notionTasksDbId ≠ "")
    (hs : pyStrip s = s) :
    ((st.pending chat = some ⟨"done_pick", some m, tidf, itf⟩) →
      (st.renderCache chat m = some cache) →
      pyIsDigit s = true →
      1 ≤ strToNat s →
      strToNat s ≤ cache.tasks.length →
      pyStrip (cache.tasks.getD (strToNat s - 1) ⟨"", "", none, ""⟩).id ≠ "" →
      b.notionMarkTaskDone
        (pyStrip (cache.tasks.getD (strToNat s - 1) ⟨"", "", none, ""⟩).id) = false →
      (handleEvent env b nowIso ⟨"message", some chat, uid, mid, some s, none, none⟩ st =
        ⟨popPending st chat,
         [mkReply chat "Could not mark done (Notion). Try /today again."],
         [.notionMarkTaskDone
           (pyStrip (cache.tasks.getD (strToNat s - 1) ⟨"", "", none, ""⟩).id)],
         false⟩ ∧
       (popPending st chat).pending chat = none)) ∧
    ((st.pending chat = some ⟨"edit_new_text", some m, some tid, some n⟩) →
      s ≠ "" →
      pyStartsWithChar '/' s = false →
      b.notionUpdateTaskTitle (pyStrip tid) s = false →
      (handleEvent env b nowIso ⟨"message", some chat, uid, mid, some s, none, none⟩ st =
        ⟨popPending st chat,
         [.edit chat m none (some ⟨pyStrip tid, s⟩)],
         [.notionUpdateTaskTitle (pyStrip tid) s],
         false⟩ ∧
       (popPending st chat).pending chat = none)) := by
  constructor
  · intro hpend hcache hdig hk1 hk2 hid hfail
    constructor
    · unfold handleEvent
      rw [if_neg (by simp)]
      show (if ("message" : String) = "message" then _ else _) = _
      rw [if_pos rfl]
      simp only [Option.getD_some, hs, resolveNotionIds_no_db env b hdb, Option.getD_none]
      rw [hpend]
      rw [if_neg (by
        intro hc
        have h2 := hc.2
        rw [not_slash_of_digit hdig] at h2
        simp at h2)]
      simp only [routeIsText, if_pos rfl]
      rw [interceptPending_done_pick_fail _ m tidf itf st cache hs hdig hcache hk1 hk2 hid
        (by simp only [decide_eq_true_eq]; exact ⟨htok, hnid, htid⟩) hfail]
      unfold withResCalls
      rfl
    · unfold popPending
      simp
  · intro hpend hne hslash _hupd
    constructor
    · unfold handleEvent
      rw [if_neg (by simp)]
      show (if ("message" : String) = "message" then _ else _) = _
      rw [if_pos rfl]
      simp only [Option.getD_some, hs, resolveNotionIds_no_db env b hdb, Option.getD_none]
      rw [hpend]
      rw [if_neg (by
        intro hc
        have h2 := hc.2
        rw [hslash] at h2
        simp at h2)]
      simp only [routeIsText, if_pos rfl]
      rw [interceptPending_edit_new_text _ m tid n st hs hne
        (by simp only [decide_eq_true_eq]; exact ⟨htok, hnid, htid⟩)]
      unfold withResCalls
      rfl
    · unfold popPending
      simp

/-- C2 witness: Scenario D — cache of two tasks at (123, 99), done-pick
reply "2" marks `t2` done once and edits the list message. -/
theorem done_pick_valid_witness :
    handleEvent wEnvNotion wBackend "now"
      ⟨"message", some 123, some 999, some 100, some "2", none, none⟩ wStatePick =
      ⟨popPending wStatePick 123, [.edit 123 99 (some "t2") none],
       [.notionMarkTaskDone "t2"], false⟩ ∧
    (popPending wStatePick 123).pending 123 = none := by
  have h := done_pick_valid wEnvNotion wBackend "now" 123 (some 999) (some 100) 99 "2"
    wStatePick ⟨"today", [⟨"t1", "Task 1", none, "todo"⟩, ⟨"t2", "Task 2", none, "todo"⟩], "x"⟩
    none none rfl (by decide) (by decide) (by decide) rfl rfl rfl (by decide) (by decide)
    (by decide) (by decide) rfl
  exact h

/-- C6 witness: done-pick over the two-task cache — replies "abc", "0" and
"7" each re-prompt and leave the state untouched. -/
theorem invalid_pick_reply_keeps_pending_witness :
    (handleEvent wEnvNotion wBackend "now"
      ⟨"message", some 123, some 999, some 100, some "abc", none, none⟩ wStatePick =
      ⟨wStatePick, [mkReply 123 "Reply with the item number (e.g. 2)."], [], false⟩) ∧
    (handleEvent wEnvNotion wBackend "now"
      ⟨"message", some 123, some 999, some 100, some "0", none, none⟩ wStatePick =
      ⟨wStatePick, [mkReply 123 "Invalid number. Choose 1 to 2."], [], false⟩) ∧
    (handleEvent wEnvNotion wBackend "now"
      ⟨"message", some 123, some 999, some 100, some "7", none, none⟩ wStatePick =
      ⟨wStatePick, [mkReply 123 "Invalid number. Choose 1 to 2."], [], false⟩) := by
  refine ⟨?_, ?_, ?_⟩
  · have h := invalid_pick_reply_keeps_pending wEnvNotion wBackend "now" 123 (some 999)
      (some 100) 99 "done_pick" "abc" wStatePick
      ⟨"today", [⟨"t1", "Task 1", none, "todo"⟩, ⟨"t2", "Task 2", none, "todo"⟩], "x"⟩
      none none rfl (Or.inl rfl) rfl rfl (by decide) rfl (by decide) (Or.inl (by decide))
    exact h
  · have h := invalid_pick_reply_keeps_pending wEnvNotion wBackend "now" 123 (some 999)
      (some 100) 99 "done_pick" "0" wStatePick
      ⟨"today", [⟨"t1", "Task 1", none, "todo"⟩, ⟨"t2", "Task 2", none, "todo"⟩], "x"⟩
      none none rfl (Or.inl rfl) rfl rfl (by decide) rfl (by decide)
      (Or.inr (Or.inl (by decide)))
    exact h
  · have h := invalid_pick_reply_keeps_pending wEnvNotion wBackend "now" 123 (some 999)
      (some 100) 99 "done_pick" "7" wStatePick
      ⟨"today", [⟨"t1", "Task 1", none, "todo"⟩, ⟨"t2", "Task 2", none, "todo"⟩], "x"⟩
      none none rfl (Or.inl rfl) rfl rfl (by decide) rfl (by decide)
      (Or.inr (Or.inr (by decide)))
    exact h

/-- C3 amended witness: with the failing oracle, done-pick reply "1" over
the one-task cache replies "could not mark done" and clears pending; and
an edit-new-text reply "New title" proceeds as success (pending cleared,
edit intent emitted) even though the title update returned false. -/
theorem backend_failure_clears_pending_witness :
    (handleEvent wEnvNotion wBackendFail "now"
      ⟨"message", some 5, some 999, some 10, some "1", none, none⟩ wStateFail =
      ⟨popPending wStateFail 5,
       [mkReply 5 "Could not mark done (Notion). Try /today again."],
       [.notionMarkTaskDone "t1"], false⟩ ∧
     (popPending wStateFail 5).pending 5 = none) ∧
    (handleEvent wEnvNotion wBackendFail "now"
      ⟨"message", some 5, some 999, some 11, some "New title", none, none⟩ wStateEditNew =
      ⟨popPending wStateEditNew 5,
       [.edit 5 9 none (some ⟨"t1", "New title"⟩)],
       [.notionUpdateTaskTitle "t1" "New title"], false⟩ ∧
     (popPending wStateEditNew 5).pending 5 = none) := by
  constructor
  · have h := (backend_failure_clears_pending wEnvNotion wBackendFail "now" 5 (some 999)
      (some 10) 9 "1" wStateFail ⟨"today", [⟨"t1", "A", none, "todo"⟩], "x"⟩ none none "t1" 1
      rfl (by decide) (by decide) (by decide) rfl).1 rfl rfl (by decide) (by decide)
      (by decide) (by decide) rfl
    exact h
  · have h := (backend_failure_clears_pending wEnvNotion wBackendFail "now" 5 (some 999)
      (some 11) 9 "New title" wStateEditNew ⟨"today", [], "x"⟩ none none "t1" 1
      rfl (by decide) (by decide) (by decide) (by decide)).2 rfl (by decide) (by decide) rfl
    exact h

/-- The source's partition loop computes exactly the claim's four filters
(so every non-done task lands in exactly one bucket, `bucketOf` being a
function). -/
theorem briefPartition_eq_filters (today : PyDate) (ts : List NTask)
    (h : ∀ t ∈ ts, isDoneStatus (normStatus t.status) = false) :
    briefPartition today ts =
      (ts.filter (fun t => bucketOf today t = .overdue),
       ts.filter (fun t => bucketOf today t = .dueToday),
       ts.filter (fun t => bucketOf today t = .doing),
       ts.filter (fun t => bucketOf today t = .noDue)) := by
  induction ts with
  | nil => rfl
  | cons t rest ih =>
    have hd := h t (by simp)
    have ihr := ih (fun u hu => h u (by simp [hu]))
    unfold briefPartition
    rw [ihr]
    simp only [hd, Bool.false_eq_true, if_false]
    by_cases hdoing : isDoingStatus (normStatus t.status) = true
    · simp [List.filter_cons, bucketOf, hdoing]
    · rcases hdue : parseDue t.due with _ | d
      · simp [List.filter_cons, bucketOf, hdoing, hdue]
      · by_cases hlt : dateLt d today = true
        · simp [List.filter_cons, bucketOf, hdoing, hdue, hlt]
        · rw [Bool.not_eq_true] at hlt
          by_cases heq : d = today
          · subst heq
            simp [List.filter_cons, bucketOf, hdoing, hdue, hlt]
          · simp [List.filter_cons, bucketOf, hdoing, hdue, hlt, heq]

/-- The source's `_section` renderer equals the claim's section shape. -/
theorem sectionText_eq_spec (label : String) (items : List NTask) (lim : Nat) :
    sectionText label items lim = sectionSpec label items lim := by
  unfold sectionText sectionSpec
  by_cases h : items = []
  · rw [if_pos h, if_pos h]
  · rw [if_neg h, if_neg h]
    simp only []
    have hlen : (items.take lim).length = min lim items.length := List.length_take lim items
    by_cases h2 : lim < items.length
    · rw [if_pos (by omega : items.length > (items.take lim).length), if_pos h2]
      rw [show items.length - (items.take lim).length = items.length - lim from by omega]
    · rw [if_neg (by omega : ¬ items.length > (items.take lim).length), if_neg h2]
      rw [List.append_nil]

/-- C8: with the richer backend active (and no relational layer), the daily
brief fetches up to 50 open tasks in a single backend call and renders the
header plus the four sections — Overdue, Due Today, Doing, No-Due/Next-Up —
where each fetched (non-done) task lands in exactly the one bucket
`bucketOf` assigns (doing-like status wins; otherwise the parsed due date
decides; unrecognized statuses fall through to the due-date logic), and
each section is `"{label}: {count}"` followed by at most `lim` numbered
lines and a `"... (+{n} more)"` suffix when truncated. -/
theorem daily_brief_buckets (env : Env) (b : Backend) (chat : Int) (st : AppState)
    (today : PyDate) (lim : Nat)
    (hdb : pyStrip env.databaseUrl = "")
    (htok : pyStrip env.notionToken ≠ "")
    (hnid : pyStrip env.notionNotesDbId ≠ "")
    (htid : pyStrip env.notionTasksDbId ≠ "")
    (hne : b.notionListInboxTasks (pyStrip env.notionTasksDbId) 50 ≠ [])
    (hopen : ∀ t ∈ b.notionListInboxTasks (pyStrip env.notionTasksDbId) 50,
      isDoneStatus (normStatus t.status) = false) :
    buildDailyBriefText env b chat st today lim =
      (pyStrip (joinSepStr "\n"
        ["Daily Brief (" ++ dateIso today ++ " SGT)", "",
         sectionSpec "⏰ Overdue"
           ((b.notionListInboxTasks (pyStrip env.notionTasksDbId) 50).filter
             (fun t => bucketOf today t = .overdue)) lim, "",
         sectionSpec "📌 Due Today"
           ((b.notionListInboxTasks (pyStrip env.notionTasksDbId) 50).filter
             (fun t => bucketOf today t = .dueToday)) lim, "",
         sectionSpec "🛠️ Doing"
           ((b.notionListInboxTasks (pyStrip env.notionTasksDbId) 50).filter
             (fun t => bucketOf today t = .doing)) lim, "",
         sectionSpec "📥 No Due Date / Next Up"
           ((b.notionListInboxTasks (pyStrip env.notionTasksDbId) 50).filter
             (fun t => bucketOf today t = .noDue)) lim]),
       [.notionListInboxTasks (pyStrip env.notionTasksDbId) 50]) := by
  unfold buildDailyBriefText
  simp only [resolveNotionIds_no_db env b hdb]
  rw [if_pos (show pyStrip env.notionToken ≠ "" ∧ pyStrip env.notionNotesDbId ≠ "" ∧
    pyStrip env.notionTasksDbId ≠ "" from ⟨htok, hnid, htid⟩)]
  rw [if_neg hne]
  rw [briefPartition_eq_filters today _ hopen]
  simp only [sectionText_eq_spec]
  rfl

/-- C8 witness: a concrete brief on 2026-02-06 — `In Progress` lands in
Doing, the past date in Overdue, today's date in Due Today, the
unrecognized status falls through to No-Due. -/
theorem daily_brief_buckets_witness :
    buildDailyBriefText wEnvNotion wBriefBackend 1 wState0 ⟨2026, 2, 6⟩ 5 =
      ("Daily Brief (2026-02-06 SGT)\n\n⏰ Overdue: 1\n1. A (due 2026-01-01)\n\n📌 Due Today: 1\n1. (untitled) (due 2026-02-06)\n\n🛠️ Doing: 1\n1. My Task (due 2026-01-05)\n\n📥 No Due Date / Next Up: 1\n1. Q",
       [.notionListInboxTasks "k" 50]) := by
  have h := daily_brief_buckets wEnvNotion wBriefBackend 1 wState0 ⟨2026, 2, 6⟩ 5
    rfl (by decide) (by decide) (by decide) (by decide) (by decide)
  rw [h]
  rfl

end SmartAssistant
